import Mathlib

/-!
# kkt-54fz-monitoring: clustering, exporter, configuration and collectors

A shallow embedding of

* `internal/domain/models.go`  (the `KKTError` and `Metrics` records and their enumerations),
* `internal/ai/mock_provider.go`  (`MockProvider.ClusterErrors`, `generateMockSuggestion`,
  `MockProvider.GenerateAlertRecommendations`),
* `internal/exporter/exporter.go` (`Exporter.UpdateMetrics`, `errorTypeName`),
* `internal/config/config.go` (`Config.Validate`),
* `internal/collector/file_log.go`, `internal/collector/http_ofd.go` (`Start`, `Stop`,
  `collectOnce` of both collectors),

followed by the properties proved about them.

Modelling conventions.

* Go `int`, `int64` and the `int`-based enumerations are `Int`; no arithmetic in the embedded
  code can overflow (the only arithmetic is `len` and a counter bounded by the input length).
* A `time.Time` is represented by its Unix time in seconds, read in UTC.
* A Go `map` is a list of entries with pairwise distinct keys.  `for k, v := range m` visits
  every entry exactly once in an order the language leaves unspecified and that may differ
  between two executions of the same statement; the order is an explicit argument (`pick`)
  of every function that ranges over a map, constrained by `RangeOrder`.
* `float64` is an arbitrary type `F` together with the conversion `toF : Int → F` standing for
  Go's `float64(·)`; nothing in the embedded code computes with floats.  Where the code
  writes `float64` literals or compares with 0 (recommendation thresholds, the similarity
  threshold, the stub snapshots of the collectors) the value is the rational the literal
  denotes.
* A buffered channel is its buffer, capacity and closed flag; a method call either returns
  (new receiver state and error value) or panics.
-/

namespace KKT

/-! ## `internal/domain/models.go` -/

/-- Go type `KKTStatus`, an `int`. -/
abbrev KKTStatus := Int
/-- Go type `ShiftStatus`, an `int`. -/
abbrev ShiftStatus := Int
/-- Go type `OFDSyncStatus`, an `int`. -/
abbrev OFDSyncStatus := Int
/-- Go type `ErrorType`, an `int`. -/
abbrev ErrorType := Int
/-- Go type `ErrorSeverity`, an `int`. -/
abbrev ErrorSeverity := Int
/-- A `time.Time`, as Unix seconds. -/
abbrev Time := Int

def KKTStatusUnavailable : KKTStatus := 0
def KKTStatusRunning : KKTStatus := 1
def KKTStatusError : KKTStatus := 2

def ShiftStatusClosed : ShiftStatus := 0
def ShiftStatusOpen : ShiftStatus := 1

def OFDSyncStatusUnknown : OFDSyncStatus := 0
def OFDSyncStatusSynced : OFDSyncStatus := 1
def OFDSyncStatusPending : OFDSyncStatus := 2
def OFDSyncStatusError : OFDSyncStatus := 3

def ErrorTypeNetwork : ErrorType := 1
def ErrorTypeFiscalDrive : ErrorType := 2
def ErrorTypeOFD : ErrorType := 3
def ErrorTypePrinter : ErrorType := 4
def ErrorTypeHardware : ErrorType := 5
def ErrorTypeSoftware : ErrorType := 6
def ErrorTypeConfiguration : ErrorType := 7

def ErrorSeverityInfo : ErrorSeverity := 1
def ErrorSeverityWarning : ErrorSeverity := 2
def ErrorSeverityError : ErrorSeverity := 3
def ErrorSeverityCritical : ErrorSeverity := 4

/-- The record `KKTError`. -/
structure KKTError where
  ID : String
  KKTID : String
  ErrorCode : String
  ErrorType : ErrorType
  Severity : ErrorSeverity
  Message : String
  Timestamp : Time
  Resolved : Bool
  ResolvedAt : Option Time
  deriving DecidableEq, Repr

/-- The record `Metrics`; `ErrorsByType` is the entry list of a `map[ErrorType]int64`. -/
structure Metrics (F : Type) where
  KKTID : String
  Timestamp : Time
  Status : KKTStatus
  DocumentsTotal : Int
  ErrorsByType : List (ErrorType × Int)
  OFDSyncStatus : OFDSyncStatus
  ShiftStatus : ShiftStatus
  LastDocumentTime : Time
  FDMemoryUsage : F
  DocumentsPerHour : F
  AverageSyncTime : F

/-! ## Go maps and `range` -/

/-- The entries of a Go map have pairwise distinct keys. -/
def NodupKeys {α β : Type} (m : List (α × β)) : Prop := (m.map Prod.fst).Nodup

/-- An admissible behaviour of `range` over a map: whatever the map, each of its entries is
visited exactly once. -/
def RangeOrder {α : Type} (pick : List α → List α) : Prop := ∀ m, (pick m).Perm m

/-! ## `internal/ai/provider.go` -/

/-- The record `ErrorCluster`. -/
structure ErrorCluster where
  ID : String
  Errors : List KKTError
  Pattern : String
  Severity : ErrorSeverity
  Count : Int
  FirstSeen : String
  LastSeen : String
  Suggestion : String
  deriving DecidableEq, Repr

/-! ## `time.Time.Format("2006-01-02 15:04:05")` -/

/-- Decimal rendering of `n` in at least `w` digits, zero padded on the left. -/
def padLeft (w : Nat) (n : Nat) : String :=
  let s := toString n
  String.mk (List.replicate (w - s.length) '0') ++ s

/-- The proleptic Gregorian date `(year, month, day)` of a day count since 1970-01-01. -/
def civilFromDays (days : Int) : Int × Int × Int :=
  let z := days + 719468
  let era := z / 146097
  let doe := z % 146097
  let yoe := (doe - doe / 1460 + doe / 36524 - doe / 146096) / 365
  let doy := doe - (365 * yoe + yoe / 4 - yoe / 100)
  let mp := (5 * doy + 2) / 153
  let d := doy - (153 * mp + 2) / 5 + 1
  let m := if mp < 10 then mp + 3 else mp - 9
  let y := yoe + era * 400 + (if m ≤ 2 then 1 else 0)
  (y, m, d)

/-- The layout `"2006-01-02 15:04:05"` applied to a UTC instant whose year lies in 0..9999. -/
def formatTimestamp (t : Time) : String :=
  let days := t / 86400
  let secs := t % 86400
  let (y, m, d) := civilFromDays days
  padLeft 4 y.toNat ++ "-" ++ padLeft 2 m.toNat ++ "-" ++ padLeft 2 d.toNat ++ " " ++
    padLeft 2 (secs / 3600).toNat ++ ":" ++ padLeft 2 (secs % 3600 / 60).toNat ++ ":" ++
    padLeft 2 (secs % 60).toNat

/-! ## `internal/ai/mock_provider.go` -/

/-- The function `generateMockSuggestion`. -/
def generateMockSuggestion (errType : ErrorType) : String :=
  if errType = ErrorTypeNetwork then "Check network connectivity and firewall settings"
  else if errType = ErrorTypeFiscalDrive then
    "Verify fiscal drive status and consider replacement if near capacity"
  else if errType = ErrorTypeOFD then "Check OFD service status and credentials"
  else if errType = ErrorTypePrinter then "Check printer connection and paper supply"
  else if errType = ErrorTypeHardware then "Inspect hardware components and connections"
  else if errType = ErrorTypeSoftware then
    "Review software logs and consider updating to latest version"
  else if errType = ErrorTypeConfiguration then
    "Review configuration settings and compare with documentation"
  else "Contact technical support for assistance"

/-- One pass of the first loop of `ClusterErrors`:
`clusters[err.ErrorType] = append(clusters[err.ErrorType], err)`. -/
def appendToCluster : List (ErrorType × List KKTError) → KKTError →
    List (ErrorType × List KKTError)
  | [], err => [(err.ErrorType, [err])]
  | (k, errs) :: rest, err =>
    if k = err.ErrorType then (k, errs ++ [err]) :: rest
    else (k, errs) :: appendToCluster rest err

/-- The first loop of `ClusterErrors`: the map `clusters` once every error has been filed. -/
def groupByType (errors : List KKTError) : List (ErrorType × List KKTError) :=
  errors.foldl appendToCluster []

/-- The second loop of `ClusterErrors`, over the entries in the order `range` visits them,
threading the counter `clusterID` and the slice `result`. -/
def clusterLoop (fmt : Time → String) :
    List (ErrorType × List KKTError) → Int → List ErrorCluster → List ErrorCluster
  | [], _, result => result
  | (errType, errs) :: rest, clusterID, result =>
    match errs with
    | [] => clusterLoop fmt rest clusterID result
    | first :: more =>
      let cluster : ErrorCluster :=
        { ID := "cluster-" ++ toString clusterID
          Errors := errs
          Pattern := "Errors of type: " ++ toString errType
          Severity := first.Severity
          Count := errs.length
          FirstSeen := fmt first.Timestamp
          LastSeen := fmt ((first :: more).getLast (List.cons_ne_nil first more)).Timestamp
          Suggestion := generateMockSuggestion errType }
      clusterLoop fmt rest (clusterID + 1) (result ++ [cluster])

/-- The method `MockProvider.ClusterErrors`: the returned slice and the returned error
(`none` is `nil`).  `fmt` renders a timestamp in the layout `"2006-01-02 15:04:05"`; `pick`
is the order in which `range clusters` visits the map. -/
def ClusterErrors (fmt : Time → String)
    (pick : List (ErrorType × List KKTError) → List (ErrorType × List KKTError))
    (errors : List KKTError) : List ErrorCluster × Option String :=
  if errors.length = 0 then ([], none)
  else (clusterLoop fmt (pick (groupByType errors)) 1 [], none)

/-! ## `internal/exporter/exporter.go` -/

/-- A `*prometheus.GaugeVec` with label tuples `L`: the value of the child gauge of every
label tuple that has one; `none` where no series is exposed. -/
abbrev GaugeVec (L F : Type) := L → Option F

/-- The call `vec.WithLabelValues(lvs...).Set(v)`: the child of `lvs` is created when absent
and set to `v`; every other child is left alone. -/
def GaugeVec.set {L F : Type} [DecidableEq L] (vec : GaugeVec L F) (lvs : L) (v : F) :
    GaugeVec L F :=
  Function.update vec lvs (some v)

/-- The record `Exporter`: its nine gauge vectors (the logger and the mutex carry no series).
All are labelled by `kkt_id`; `kktErrorsTotal` by `(kkt_id, error_type)`. -/
structure Exporter (F : Type) where
  kktStatus : GaugeVec String F
  kktDocumentsTotal : GaugeVec String F
  kktErrorsTotal : GaugeVec (String × String) F
  kktOFDSyncStatus : GaugeVec String F
  kktShiftStatus : GaugeVec String F
  kktLastDocumentTime : GaugeVec String F
  kktFDMemoryUsage : GaugeVec String F
  kktDocumentsPerHour : GaugeVec String F
  kktAvgSyncTime : GaugeVec String F

/-- The method `initMetrics`: nine fresh gauge vectors, none with a child. -/
def initMetrics (F : Type) : Exporter F :=
  { kktStatus := fun _ => none
    kktDocumentsTotal := fun _ => none
    kktErrorsTotal := fun _ => none
    kktOFDSyncStatus := fun _ => none
    kktShiftStatus := fun _ => none
    kktLastDocumentTime := fun _ => none
    kktFDMemoryUsage := fun _ => none
    kktDocumentsPerHour := fun _ => none
    kktAvgSyncTime := fun _ => none }

/-- The constructor `New`: an exporter right after `initMetrics` (registration with the
registry exposes the vectors and adds no series). -/
def New (F : Type) : Exporter F := initMetrics F

/-- The function `errorTypeName`. -/
def errorTypeName (et : ErrorType) : String :=
  if et = ErrorTypeNetwork then "network"
  else if et = ErrorTypeFiscalDrive then "fiscal_drive"
  else if et = ErrorTypeOFD then "ofd"
  else if et = ErrorTypePrinter then "printer"
  else if et = ErrorTypeHardware then "hardware"
  else if et = ErrorTypeSoftware then "software"
  else if et = ErrorTypeConfiguration then "configuration"
  else "unknown"

/-- The method `Exporter.UpdateMetrics`, executed under the exporter's lock.  `toF` is the
conversion `float64(·)`; `pick` is the order in which `range metrics.ErrorsByType` visits the
map. -/
def UpdateMetrics {F : Type} (toF : Int → F)
    (pick : List (ErrorType × Int) → List (ErrorType × Int))
    (e : Exporter F) (metrics : Metrics F) : Exporter F :=
  let e := { e with kktStatus := e.kktStatus.set metrics.KKTID (toF metrics.Status) }
  let e := { e with
    kktDocumentsTotal := e.kktDocumentsTotal.set metrics.KKTID (toF metrics.DocumentsTotal) }
  let e := { e with
    kktOFDSyncStatus := e.kktOFDSyncStatus.set metrics.KKTID (toF metrics.OFDSyncStatus) }
  let e := { e with
    kktShiftStatus := e.kktShiftStatus.set metrics.KKTID (toF metrics.ShiftStatus) }
  let e := { e with
    kktLastDocumentTime :=
      e.kktLastDocumentTime.set metrics.KKTID (toF metrics.LastDocumentTime) }
  let e := { e with
    kktFDMemoryUsage := e.kktFDMemoryUsage.set metrics.KKTID metrics.FDMemoryUsage }
  let e := { e with
    kktDocumentsPerHour := e.kktDocumentsPerHour.set metrics.KKTID metrics.DocumentsPerHour }
  let e := { e with
    kktAvgSyncTime := e.kktAvgSyncTime.set metrics.KKTID metrics.AverageSyncTime }
  (pick metrics.ErrorsByType).foldl
    (fun e entry =>
      { e with
        kktErrorsTotal :=
          e.kktErrorsTotal.set (metrics.KKTID, errorTypeName entry.1) (toF entry.2) })
    e

/-- A sequence of `UpdateMetrics` calls, each with the iteration order its `range` takes. -/
def runUpdates {F : Type} (toF : Int → F) (e : Exporter F)
    (calls : List ((List (ErrorType × Int) → List (ErrorType × Int)) × Metrics F)) :
    Exporter F :=
  calls.foldl (fun e call => UpdateMetrics toF call.1 e call.2) e

/-! ## Vocabulary of the exporter properties -/

/-- The error vector after the error-gauge loop has visited `visit`. -/
def errorLoop {F : Type} (toF : Int → F) (kid : String) (visit : List (ErrorType × Int))
    (vec : GaugeVec (String × String) F) : GaugeVec (String × String) F :=
  visit.foldl (fun vec entry => vec.set (kid, errorTypeName entry.1) (toF entry.2)) vec

/-- The eight scalar series of device `s.KKTID` hold the values of snapshot `s`. -/
def ScalarsOf {F : Type} (toF : Int → F) (e : Exporter F) (s : Metrics F) : Prop :=
  e.kktStatus s.KKTID = some (toF s.Status) ∧
  e.kktDocumentsTotal s.KKTID = some (toF s.DocumentsTotal) ∧
  e.kktOFDSyncStatus s.KKTID = some (toF s.OFDSyncStatus) ∧
  e.kktShiftStatus s.KKTID = some (toF s.ShiftStatus) ∧
  e.kktLastDocumentTime s.KKTID = some (toF s.LastDocumentTime) ∧
  e.kktFDMemoryUsage s.KKTID = some s.FDMemoryUsage ∧
  e.kktDocumentsPerHour s.KKTID = some s.DocumentsPerHour ∧
  e.kktAvgSyncTime s.KKTID = some s.AverageSyncTime

/-- For every error type present in snapshot `s`, the series
`kkt_errors_total{kkt_id = s.KKTID, error_type = errorTypeName t}` exists and holds the
count that `s` gives to a type with that label. -/
def ErrorsOf {F : Type} (toF : Int → F) (e : Exporter F) (s : Metrics F) : Prop :=
  ∀ t c, (t, c) ∈ s.ErrorsByType →
    ∃ t' c', (t', c') ∈ s.ErrorsByType ∧ errorTypeName t' = errorTypeName t ∧
      e.kktErrorsTotal (s.KKTID, errorTypeName t) = some (toF c')

/-- The exporters `e` and `e'` expose the same series, with the same values, for device
`d`. -/
def SameDevice {F : Type} (d : String) (e e' : Exporter F) : Prop :=
  e'.kktStatus d = e.kktStatus d ∧
  e'.kktDocumentsTotal d = e.kktDocumentsTotal d ∧
  (∀ l, e'.kktErrorsTotal (d, l) = e.kktErrorsTotal (d, l)) ∧
  e'.kktOFDSyncStatus d = e.kktOFDSyncStatus d ∧
  e'.kktShiftStatus d = e.kktShiftStatus d ∧
  e'.kktLastDocumentTime d = e.kktLastDocumentTime d ∧
  e'.kktFDMemoryUsage d = e.kktFDMemoryUsage d ∧
  e'.kktDocumentsPerHour d = e.kktDocumentsPerHour d ∧
  e'.kktAvgSyncTime d = e.kktAvgSyncTime d

/-- The exporter `e` exposes no series for device `d`. -/
def NoSeries {F : Type} (d : String) (e : Exporter F) : Prop :=
  e.kktStatus d = none ∧
  e.kktDocumentsTotal d = none ∧
  (∀ l, e.kktErrorsTotal (d, l) = none) ∧
  e.kktOFDSyncStatus d = none ∧
  e.kktShiftStatus d = none ∧
  e.kktLastDocumentTime d = none ∧
  e.kktFDMemoryUsage d = none ∧
  e.kktDocumentsPerHour d = none ∧
  e.kktAvgSyncTime d = none

/-! ## Sample snapshots (gauge values taken in `Int`, conversion the identity) -/

/-- A running device with 1000 documents and five network errors. -/
def snapNetwork : Metrics Int :=
  { KKTID := "kkt-001", Timestamp := 1704153600, Status := KKTStatusRunning,
    DocumentsTotal := 1000, ErrorsByType := [(ErrorTypeNetwork, 5)],
    OFDSyncStatus := OFDSyncStatusSynced, ShiftStatus := ShiftStatusOpen,
    LastDocumentTime := 1704153000, FDMemoryUsage := 40, DocumentsPerHour := 12,
    AverageSyncTime := 2 }

/-- A later snapshot of the same device that reports no errors at all. -/
def snapClean : Metrics Int :=
  { snapNetwork with Timestamp := 1704157200, DocumentsTotal := 1010, ErrorsByType := [] }

/-- A snapshot with two error types outside the named range; `errorTypeName` labels both
`unknown`. -/
def snapUnknown : Metrics Int :=
  { snapNetwork with ErrorsByType := [(0, 3), (8, 7)] }

/-- A snapshot of a second device. -/
def snapOther : Metrics Int :=
  { snapNetwork with
    KKTID := "kkt-002"
    Status := KKTStatusError
    DocumentsTotal := 17
    ErrorsByType := [(ErrorTypeOFD, 2)] }

/-! ## Vocabulary of the grouping and cluster-building loops -/

/-- The errors of `E` whose type is `t`, in input order. -/
def errorsOfType (t : ErrorType) (E : List KKTError) : List KKTError :=
  E.filter (fun e => decide (e.ErrorType = t))

/-- What the first loop of `ClusterErrors` has established once the errors `E` are filed in
`m`: keys are distinct, each key holds exactly the errors of its type in input order, no entry
is empty, and every type seen has an entry. -/
def Grouped (E : List KKTError) (m : List (ErrorType × List KKTError)) : Prop :=
  NodupKeys m ∧ (∀ p ∈ m, p.2 = errorsOfType p.1 E ∧ p.2 ≠ []) ∧
    ∀ e ∈ E, e.ErrorType ∈ m.map Prod.fst

/-- A cluster with its `ID` blanked. -/
def eraseID (c : ErrorCluster) : ErrorCluster := { c with ID := "" }

/-- What the second loop of `ClusterErrors` makes of one map entry, `ID` apart: nothing for
an empty entry, otherwise the cluster described by the struct literal. -/
def entryCluster (fmt : Time → String) (p : ErrorType × List KKTError) : Option ErrorCluster :=
  match p.2 with
  | [] => none
  | first :: more =>
    some
      { ID := ""
        Errors := first :: more
        Pattern := "Errors of type: " ++ toString p.1
        Severity := first.Severity
        Count := (first :: more).length
        FirstSeen := fmt first.Timestamp
        LastSeen := fmt ((first :: more).getLast (List.cons_ne_nil first more)).Timestamp
        Suggestion := generateMockSuggestion p.1 }

/-- The clusters returned by `ClusterErrors`. -/
abbrev clustersOf (fmt : Time → String)
    (pick : List (ErrorType × List KKTError) → List (ErrorType × List KKTError))
    (errors : List KKTError) : List ErrorCluster :=
  (ClusterErrors fmt pick errors).1

/-! ## Vocabulary of the clustering properties -/

/-- The severity `s` is the maximum severity among `errs`. -/
def IsMaxSeverity (s : ErrorSeverity) (errs : List KKTError) : Prop :=
  (∃ e ∈ errs, e.Severity = s) ∧ ∀ e ∈ errs, e.Severity ≤ s

instance (s : ErrorSeverity) (errs : List KKTError) : Decidable (IsMaxSeverity s errs) := by
  unfold IsMaxSeverity
  infer_instance

/-- The instant `t` is the earliest timestamp among `errs`. -/
def IsEarliest (t : Time) (errs : List KKTError) : Prop :=
  (∃ e ∈ errs, e.Timestamp = t) ∧ ∀ e ∈ errs, t ≤ e.Timestamp

instance (t : Time) (errs : List KKTError) : Decidable (IsEarliest t errs) := by
  unfold IsEarliest
  infer_instance

/-- The instant `t` is the latest timestamp among `errs`. -/
def IsLatest (t : Time) (errs : List KKTError) : Prop :=
  (∃ e ∈ errs, e.Timestamp = t) ∧ ∀ e ∈ errs, e.Timestamp ≤ t

instance (t : Time) (errs : List KKTError) : Decidable (IsLatest t errs) := by
  unfold IsLatest
  infer_instance

/-- Two errors are members of one and the same returned cluster. -/
def sameCluster (out : List ErrorCluster) (a b : KKTError) : Prop :=
  ∃ c ∈ out, a ∈ c.Errors ∧ b ∈ c.Errors

/-! ## Sample inputs -/

/-- A network warning stamped 2024-01-02 00:00:00 UTC. -/
def netLate : KKTError :=
  { ID := "err-1", KKTID := "kkt-001", ErrorCode := "E100", ErrorType := ErrorTypeNetwork,
    Severity := ErrorSeverityWarning, Message := "Network timeout", Timestamp := 1704153600,
    Resolved := false, ResolvedAt := none }

/-- A critical network error stamped 2024-01-01 00:00:00 UTC. -/
def netEarly : KKTError :=
  { ID := "err-2", KKTID := "kkt-001", ErrorCode := "E101", ErrorType := ErrorTypeNetwork,
    Severity := ErrorSeverityCritical, Message := "Network connection lost",
    Timestamp := 1704067200, Resolved := false, ResolvedAt := none }

/-- A critical fiscal-drive error stamped 2024-01-03 00:00:00 UTC. -/
def fiscalErr : KKTError :=
  { ID := "err-3", KKTID := "kkt-002", ErrorCode := "E200", ErrorType := ErrorTypeFiscalDrive,
    Severity := ErrorSeverityCritical, Message := "Fiscal drive error",
    Timestamp := 1704240000, Resolved := false, ResolvedAt := none }

/-- The cluster returned for the input `[netLate, netEarly]`. -/
def netCluster : ErrorCluster :=
  { ID := "cluster-1", Errors := [netLate, netEarly], Pattern := "Errors of type: 1",
    Severity := ErrorSeverityWarning, Count := 2, FirstSeen := "2024-01-02 00:00:00",
    LastSeen := "2024-01-01 00:00:00",
    Suggestion := "Check network connectivity and firewall settings" }

/-! ## `internal/config/config.go` -/

/-- A `time.Duration`, in nanoseconds. -/
abbrev Duration := Int

/-- The constant `time.Second`. -/
def Second : Duration := 1000000000

/-- The constant `time.Hour`. -/
def Hour : Duration := 3600 * Second

/-- The record `ServerConfig`. -/
structure ServerConfig where
  Port : Int
  MetricsPath : String
  APIPath : String
  deriving DecidableEq, Repr

/-- The record `FileLogConfig`. -/
structure FileLogConfig where
  Enabled : Bool
  Path : String
  Format : String
  PollInterval : Duration
  deriving DecidableEq, Repr

/-- The record `HTTPOFDConfig`. -/
structure HTTPOFDConfig where
  Enabled : Bool
  URL : String
  APIKey : String
  PollInterval : Duration
  Timeout : Duration
  deriving DecidableEq, Repr

/-- The record `CollectorsConfig`. -/
structure CollectorsConfig where
  FileLog : FileLogConfig
  HTTPOFD : HTTPOFDConfig
  deriving DecidableEq, Repr

/-- The record `ErrorClusteringConfig`; the `float64` threshold is read as the rational it
denotes (the code only compares it with 0 and assigns the literal 0.7). -/
structure ErrorClusteringConfig where
  Enabled : Bool
  MinClusterSize : Int
  SimilarityThreshold : ℚ
  deriving DecidableEq

/-- The record `AlertAdvisorConfig`. -/
structure AlertAdvisorConfig where
  Enabled : Bool
  LookbackPeriod : Duration
  deriving DecidableEq, Repr

/-- The record `AIConfig`. -/
structure AIConfig where
  Provider : String
  ErrorClustering : ErrorClusteringConfig
  AlertAdvisor : AlertAdvisorConfig
  deriving DecidableEq

/-- The record `LoggingConfig`. -/
structure LoggingConfig where
  Level : String
  Format : String
  deriving DecidableEq, Repr

/-- The record `Config`. -/
structure Config where
  Server : ServerConfig
  Collectors : CollectorsConfig
  AI : AIConfig
  Logging : LoggingConfig
  deriving DecidableEq

/-- The tail of `Config.Validate` from the `AI.Provider` check to the final `return nil`:
six defaults, no failure. -/
def validateAILogging (c : Config) : Config :=
  let c := if c.AI.Provider = "" then { c with AI := { c.AI with Provider := "mock" } } else c
  let c :=
    if c.AI.ErrorClustering.MinClusterSize = 0 then
      { c with AI := { c.AI with ErrorClustering := { c.AI.ErrorClustering with
          MinClusterSize := 5 } } }
    else c
  let c :=
    if c.AI.ErrorClustering.SimilarityThreshold = 0 then
      { c with AI := { c.AI with ErrorClustering := { c.AI.ErrorClustering with
          SimilarityThreshold := 7 / 10 } } }
    else c
  let c :=
    if c.AI.AlertAdvisor.LookbackPeriod = 0 then
      { c with AI := { c.AI with AlertAdvisor := { c.AI.AlertAdvisor with
          LookbackPeriod := 7 * 24 * Hour } } }
    else c
  let c :=
    if c.Logging.Level = "" then { c with Logging := { c.Logging with Level := "info" } }
    else c
  let c :=
    if c.Logging.Format = "" then { c with Logging := { c.Logging with Format := "json" } }
    else c
  c

/-- The tail of `Config.Validate` from the `HTTPOFD.Enabled` block on: the configuration as
the call leaves it and the returned error (`none` is `nil`). -/
def validateHTTPOFD (c : Config) : Config × Option String :=
  if c.Collectors.HTTPOFD.Enabled then
    if c.Collectors.HTTPOFD.URL = "" then
      (c, some "http_ofd url is required when enabled")
    else
      let c :=
        if c.Collectors.HTTPOFD.PollInterval = 0 then
          { c with Collectors := { c.Collectors with HTTPOFD := { c.Collectors.HTTPOFD with
              PollInterval := 30 * Second } } }
        else c
      let c :=
        if c.Collectors.HTTPOFD.Timeout = 0 then
          { c with Collectors := { c.Collectors with HTTPOFD := { c.Collectors.HTTPOFD with
              Timeout := 10 * Second } } }
        else c
      (validateAILogging c, none)
  else (validateAILogging c, none)

/-- The tail of `Config.Validate` from the `FileLog.Enabled` block on. -/
def validateFileLog (c : Config) : Config × Option String :=
  if c.Collectors.FileLog.Enabled then
    if c.Collectors.FileLog.Path = "" then
      (c, some "file_log path is required when enabled")
    else
      let c :=
        if c.Collectors.FileLog.Format = "" then
          { c with Collectors := { c.Collectors with FileLog := { c.Collectors.FileLog with
              Format := "json" } } }
        else c
      let c :=
        if c.Collectors.FileLog.PollInterval = 0 then
          { c with Collectors := { c.Collectors with FileLog := { c.Collectors.FileLog with
              PollInterval := 10 * Second } } }
        else c
      validateHTTPOFD c
  else validateHTTPOFD c

/-- The method `Config.Validate`, which updates the configuration in place: the
configuration as the call leaves it and the returned error (`none` is `nil`). -/
def Config.Validate (c : Config) : Config × Option String :=
  if c.Server.Port ≤ 0 ∨ c.Server.Port > 65535 then
    (c, some ("invalid server port: " ++ toString c.Server.Port))
  else
    let c :=
      if c.Server.MetricsPath = "" then
        { c with Server := { c.Server with MetricsPath := "/metrics" } }
      else c
    let c :=
      if c.Server.APIPath = "" then { c with Server := { c.Server with APIPath := "/api/v1" } }
      else c
    validateFileLog c

/-! ## Vocabulary of the configuration properties -/

/-- The string `s`, or the default `d` when `s` is empty. -/
def stringOr (s d : String) : String := if s = "" then d else s

/-- The integer `x`, or the default `d` when `x` is zero. -/
def intOr (x d : Int) : Int := if x = 0 then d else x

/-- The server section with its two defaults filled in. -/
def serverDefaults (s : ServerConfig) : ServerConfig :=
  { s with
    MetricsPath := stringOr s.MetricsPath "/metrics"
    APIPath := stringOr s.APIPath "/api/v1" }

/-- The file-log section with its defaults filled in when the collector is enabled. -/
def fileLogDefaults (f : FileLogConfig) : FileLogConfig :=
  if f.Enabled then
    { f with
      Format := stringOr f.Format "json"
      PollInterval := intOr f.PollInterval (10 * Second) }
  else f

/-- The OFD section with its defaults filled in when the collector is enabled. -/
def httpOFDDefaults (h : HTTPOFDConfig) : HTTPOFDConfig :=
  if h.Enabled then
    { h with
      PollInterval := intOr h.PollInterval (30 * Second)
      Timeout := intOr h.Timeout (10 * Second) }
  else h

/-- The configuration `c` with each zero-valued defaultable field replaced by its default
and every other field left as given: `metrics_path=/metrics`, `api_path=/api/v1`, for an
enabled collector file_log `format=json`, `poll_interval=10s`, http_ofd `poll_interval=30s`,
`timeout=10s`, AI `provider=mock`, `min_cluster_size=5`, `similarity_threshold=0.7`, alert
lookback 7 days, log `level=info`, log `format=json`. -/
def withDefaults (c : Config) : Config :=
  { Server := serverDefaults c.Server
    Collectors :=
      { FileLog := fileLogDefaults c.Collectors.FileLog
        HTTPOFD := httpOFDDefaults c.Collectors.HTTPOFD }
    AI :=
      { Provider := stringOr c.AI.Provider "mock"
        ErrorClustering :=
          { Enabled := c.AI.ErrorClustering.Enabled
            MinClusterSize := intOr c.AI.ErrorClustering.MinClusterSize 5
            SimilarityThreshold :=
              if c.AI.ErrorClustering.SimilarityThreshold = 0 then 7 / 10
              else c.AI.ErrorClustering.SimilarityThreshold }
        AlertAdvisor :=
          { Enabled := c.AI.AlertAdvisor.Enabled
            LookbackPeriod := intOr c.AI.AlertAdvisor.LookbackPeriod (7 * 24 * Hour) } }
    Logging :=
      { Level := stringOr c.Logging.Level "info"
        Format := stringOr c.Logging.Format "json" } }

/-- The configuration `c` has a reason for `Validate` to fail: a port outside 1..65535, or
file_log enabled with an empty path, or http_ofd enabled with an empty url. -/
def Invalid (c : Config) : Prop :=
  (c.Server.Port < 1 ∨ 65535 < c.Server.Port) ∨
    (c.Collectors.FileLog.Enabled = true ∧ c.Collectors.FileLog.Path = "") ∨
    (c.Collectors.HTTPOFD.Enabled = true ∧ c.Collectors.HTTPOFD.URL = "")

/-! ## Sample configurations -/

/-- The all-zero configuration. -/
def zeroConfig : Config :=
  { Server := { Port := 0, MetricsPath := "", APIPath := "" }
    Collectors :=
      { FileLog := { Enabled := false, Path := "", Format := "", PollInterval := 0 }
        HTTPOFD :=
          { Enabled := false, URL := "", APIKey := "", PollInterval := 0, Timeout := 0 } }
    AI :=
      { Provider := ""
        ErrorClustering := { Enabled := false, MinClusterSize := 0, SimilarityThreshold := 0 }
        AlertAdvisor := { Enabled := false, LookbackPeriod := 0 } }
    Logging := { Level := "", Format := "" } }

/-- The "valid config" case of `TestValidate`: port 9090 and file_log enabled with a path,
everything else zero. -/
def validConfig : Config :=
  { zeroConfig with
    Server := { zeroConfig.Server with Port := 9090 }
    Collectors :=
      { zeroConfig.Collectors with
        FileLog := { zeroConfig.Collectors.FileLog with
          Enabled := true
          Path := "/var/log/kkt/*.log" } } }

/-- The "file_log enabled without path" case of `TestValidate`. -/
def noPathConfig : Config :=
  { zeroConfig with
    Server := { zeroConfig.Server with Port := 9090 }
    Collectors :=
      { zeroConfig.Collectors with
        FileLog := { zeroConfig.Collectors.FileLog with Enabled := true } } }

/-- A configuration with a valid port and file_log section whose enabled http_ofd section
has no url. -/
def noURLConfig : Config :=
  { validConfig with
    Collectors :=
      { validConfig.Collectors with
        HTTPOFD := { validConfig.Collectors.HTTPOFD with Enabled := true } } }

/-! ## Alert recommendations (`internal/ai/provider.go`, `internal/ai/mock_provider.go`) -/

/-- The record `AlertRecommendation`; the field `Type` is named `RecType` here, and the
`float64` threshold is read as the rational its literal denotes. -/
structure AlertRecommendation where
  ID : String
  RecType : String
  Condition : String
  Threshold : ℚ
  Severity : String
  Description : String
  Rationale : String

/-- The method `MockProvider.GenerateAlertRecommendations`: the returned slice and the
returned error (`none` is `nil`). -/
def GenerateAlertRecommendations {F : Type} (_metrics : List (Metrics F)) :
    List AlertRecommendation × Option String :=
  let recommendations : List AlertRecommendation :=
    [ { ID := "rec-1"
        RecType := "kkt_unavailable"
        Condition := "kkt_status == 0"
        Threshold := 5.0
        Severity := "critical"
        Description := "Alert when KKT is unavailable for more than 5 minutes"
        Rationale := "Based on historical data, KKT unavailability beyond 5 minutes typically indicates a serious issue requiring immediate attention." },
      { ID := "rec-2"
        RecType := "fd_memory_high"
        Condition := "kkt_fd_memory_usage_percent > 80"
        Threshold := 80.0
        Severity := "warning"
        Description := "Alert when fiscal drive memory usage exceeds 80%"
        Rationale := "High memory usage may lead to fiscal drive overflow. Early warning allows for proactive replacement." },
      { ID := "rec-3"
        RecType := "ofd_sync_failure"
        Condition := "kkt_ofd_sync_status == 3"
        Threshold := 0.0
        Severity := "high"
        Description := "Alert on OFD synchronization failures"
        Rationale := "OFD sync failures can lead to compliance violations. Immediate action required." },
      { ID := "rec-4"
        RecType := "low_document_rate"
        Condition := "kkt_documents_per_hour < 10"
        Threshold := 10.0
        Severity := "warning"
        Description := "Alert when document processing rate is unusually low"
        Rationale := "Low document rate may indicate KKT malfunction or business operation issues." } ]
  (recommendations, none)

/-- The condition expression `cond` is about the series `series`: it starts with the series
name followed by a blank. -/
def refersTo (cond series : String) : Prop :=
  (series.toList ++ [' ']).isPrefixOf cond.toList = true

instance (cond series : String) : Decidable (refersTo cond series) := by
  unfold refersTo
  infer_instance

/-! ## Go channels -/

/-- A buffered channel `chan α`: the values waiting in its buffer (oldest first), its
capacity, and whether it has been closed. -/
structure Chan (α : Type) where
  buf : List α
  cap : Nat
  closed : Bool

/-- The expression `make(chan α, cap)`. -/
def Chan.make (α : Type) (cap : Nat) : Chan α :=
  { buf := [], cap := cap, closed := false }

/-- The statement `close(ch)`: closing a closed channel is a run-time panic, reported as the
error of `Except`. -/
def Chan.close {α : Type} (ch : Chan α) : Except String (Chan α) :=
  if ch.closed then Except.error "close of closed channel"
  else Except.ok { ch with closed := true }

/-- What `select { case ch <- v: ... default: ... }` does. -/
inductive TrySend (α : Type) where
  | sent (ch : Chan α)
  | wouldBlock
  | panicked (msg : String)

/-- The statement `select { case ch <- v: default: }` on a buffered channel: the send case
is taken when the buffer has room, the default case when it is full; sending on a closed
channel panics. -/
def Chan.trySend {α : Type} (ch : Chan α) (v : α) : TrySend α :=
  if ch.closed then TrySend.panicked "send on closed channel"
  else if ch.buf.length < ch.cap then TrySend.sent { ch with buf := ch.buf ++ [v] }
  else TrySend.wouldBlock

/-- How a method call ends: it returns, leaving the receiver in `state` and yielding the
error `err` (`none` is `nil`), or it panics. -/
inductive Outcome (σ : Type) where
  | returned (state : σ) (err : Option String)
  | panicked (msg : String)

/-! ## `internal/collector/file_log.go` -/

/-- The record `FileLogCollector` (the logger carries no state of interest); `launched`
counts the polling goroutines started by `go c.collect(ctx)`. -/
structure FileLogCollector where
  cfg : FileLogConfig
  metricsChan : Chan (Metrics ℚ)
  errorsChan : Chan KKTError
  stopChan : Chan Unit
  launched : Nat

/-- The constructor `NewFileLogCollector`. -/
def NewFileLogCollector (cfg : FileLogConfig) : FileLogCollector :=
  { cfg := cfg
    metricsChan := Chan.make (Metrics ℚ) 100
    errorsChan := Chan.make KKTError 100
    stopChan := Chan.make Unit 0
    launched := 0 }

/-- The method `FileLogCollector.Start`. -/
def FileLogCollector.Start (c : FileLogCollector) : Outcome FileLogCollector :=
  Outcome.returned { c with launched := c.launched + 1 } none

/-- The method `FileLogCollector.Stop`. -/
def FileLogCollector.Stop (c : FileLogCollector) : Outcome FileLogCollector :=
  match c.stopChan.close with
  | Except.error msg => Outcome.panicked msg
  | Except.ok ch => Outcome.returned { c with stopChan := ch } none

/-- The method `FileLogCollector.collectOnce`; `now` and `now'` are the instants returned by
its two calls of `time.Now()`. -/
def FileLogCollector.collectOnce (now now' : Time) (c : FileLogCollector) :
    Outcome FileLogCollector :=
  let metrics : Metrics ℚ :=
    { KKTID := "stub-kkt-001"
      Timestamp := now
      Status := KKTStatusRunning
      DocumentsTotal := 1000
      ErrorsByType := []
      OFDSyncStatus := OFDSyncStatusSynced
      ShiftStatus := ShiftStatusOpen
      LastDocumentTime := now' - 5 * 60
      FDMemoryUsage := 45.5
      DocumentsPerHour := 50.0
      AverageSyncTime := 2.5 }
  match c.metricsChan.trySend metrics with
  | TrySend.sent ch => Outcome.returned { c with metricsChan := ch } none
  | TrySend.wouldBlock => Outcome.returned c (some "metrics channel full")
  | TrySend.panicked msg => Outcome.panicked msg

/-! ## `internal/collector/http_ofd.go` -/

/-- The record `HTTPOFDCollector` (the logger carries no state of interest); `launched`
counts the polling goroutines started by `go c.collect(ctx)`. -/
structure HTTPOFDCollector where
  cfg : HTTPOFDConfig
  metricsChan : Chan (Metrics ℚ)
  errorsChan : Chan KKTError
  stopChan : Chan Unit
  launched : Nat

/-- The constructor `NewHTTPOFDCollector`. -/
def NewHTTPOFDCollector (cfg : HTTPOFDConfig) : HTTPOFDCollector :=
  { cfg := cfg
    metricsChan := Chan.make (Metrics ℚ) 100
    errorsChan := Chan.make KKTError 100
    stopChan := Chan.make Unit 0
    launched := 0 }

/-- The method `HTTPOFDCollector.Start`. -/
def HTTPOFDCollector.Start (c : HTTPOFDCollector) : Outcome HTTPOFDCollector :=
  Outcome.returned { c with launched := c.launched + 1 } none

/-- The method `HTTPOFDCollector.Stop`. -/
def HTTPOFDCollector.Stop (c : HTTPOFDCollector) : Outcome HTTPOFDCollector :=
  match c.stopChan.close with
  | Except.error msg => Outcome.panicked msg
  | Except.ok ch => Outcome.returned { c with stopChan := ch } none

/-- The method `HTTPOFDCollector.collectOnce`; `now` and `now'` are the instants returned by
its two calls of `time.Now()`. -/
def HTTPOFDCollector.collectOnce (now now' : Time) (c : HTTPOFDCollector) :
    Outcome HTTPOFDCollector :=
  let metrics : Metrics ℚ :=
    { KKTID := "stub-kkt-002"
      Timestamp := now
      Status := KKTStatusRunning
      DocumentsTotal := 2500
      ErrorsByType := []
      OFDSyncStatus := OFDSyncStatusSynced
      ShiftStatus := ShiftStatusOpen
      LastDocumentTime := now' - 2 * 60
      FDMemoryUsage := 62.3
      DocumentsPerHour := 75.0
      AverageSyncTime := 1.8 }
  match c.metricsChan.trySend metrics with
  | TrySend.sent ch => Outcome.returned { c with metricsChan := ch } none
  | TrySend.wouldBlock => Outcome.returned c (some "metrics channel full")
  | TrySend.panicked msg => Outcome.panicked msg

/-! ## Vocabulary of the collector properties -/

/-- The snapshot a poll cycle of the file-log collector produces at the instants `now`,
`now'`. -/
def fileLogSnapshot (now now' : Time) : Metrics ℚ :=
  { KKTID := "stub-kkt-001", Timestamp := now, Status := KKTStatusRunning,
    DocumentsTotal := 1000, ErrorsByType := [], OFDSyncStatus := OFDSyncStatusSynced,
    ShiftStatus := ShiftStatusOpen, LastDocumentTime := now' - 5 * 60, FDMemoryUsage := 45.5,
    DocumentsPerHour := 50.0, AverageSyncTime := 2.5 }

/-- The snapshot a poll cycle of the OFD collector produces at the instants `now`, `now'`. -/
def httpOFDSnapshot (now now' : Time) : Metrics ℚ :=
  { KKTID := "stub-kkt-002", Timestamp := now, Status := KKTStatusRunning,
    DocumentsTotal := 2500, ErrorsByType := [], OFDSyncStatus := OFDSyncStatusSynced,
    ShiftStatus := ShiftStatusOpen, LastDocumentTime := now' - 2 * 60, FDMemoryUsage := 62.3,
    DocumentsPerHour := 75.0, AverageSyncTime := 1.8 }

/-- The channel `ch` with `v` appended at the back of its buffer. -/
def Chan.enqueued {α : Type} (ch : Chan α) (v : α) : Chan α :=
  { ch with buf := ch.buf ++ [v] }

/-! ## Sample collectors -/

/-- A file-log collector configuration. -/
def sampleFileLogConfig : FileLogConfig :=
  { Enabled := true, Path := "/var/log/kkt/*.log", Format := "json",
    PollInterval := 10 * Second }

/-- An OFD collector configuration. -/
def sampleHTTPOFDConfig : HTTPOFDConfig :=
  { Enabled := true, URL := "https://ofd.example.ru/api/v1", APIKey := "test-key",
    PollInterval := 30 * Second, Timeout := 10 * Second }

/-- A file-log collector whose stop channel has been closed by one call of `Stop`. -/
def stoppedFileLog : FileLogCollector :=
  { NewFileLogCollector sampleFileLogConfig with
    stopChan := { buf := [], cap := 0, closed := true } }

/-- An OFD collector whose stop channel has been closed by one call of `Stop`. -/
def stoppedHTTPOFD : HTTPOFDCollector :=
  { NewHTTPOFDCollector sampleHTTPOFDConfig with
    stopChan := { buf := [], cap := 0, closed := true } }

/-- A file-log collector whose metrics queue holds 100 snapshots. -/
def fullFileLog : FileLogCollector :=
  { NewFileLogCollector sampleFileLogConfig with
    metricsChan :=
      { buf := List.replicate 100 (fileLogSnapshot 1704153000 1704153001), cap := 100,
        closed := false } }

/-- An OFD collector whose metrics queue holds 100 snapshots. -/
def fullHTTPOFD : HTTPOFDCollector :=
  { NewHTTPOFDCollector sampleHTTPOFDConfig with
    metricsChan :=
      { buf := List.replicate 100 (httpOFDSnapshot 1704153000 1704153001), cap := 100,
        closed := false } }

/-! # Theorems -/

/-! ## The grouping loop -/

theorem appendToCluster_keys (m : List (ErrorType × List KKTError)) (err : KKTError) :
    (appendToCluster m err).map Prod.fst =
      if err.ErrorType ∈ m.map Prod.fst then m.map Prod.fst
      else m.map Prod.fst ++ [err.ErrorType] := by
  induction m with
  | nil => simp [appendToCluster]
  | cons p rest ih =>
    obtain ⟨k, errs⟩ := p
    by_cases hk : k = err.ErrorType
    · simp [appendToCluster, hk]
    · have hk' : ¬ err.ErrorType = k := fun h => hk h.symm
      simp only [appendToCluster, hk, if_false, List.map_cons, ih, List.mem_cons, hk', false_or]
      split <;> simp

theorem appendToCluster_mem (m : List (ErrorType × List KKTError)) (err : KKTError)
    (hm : NodupKeys m) (p : ErrorType × List KKTError) (hp : p ∈ appendToCluster m err) :
    (p ∈ m ∧ p.1 ≠ err.ErrorType) ∨
      (p.1 = err.ErrorType ∧
        ((∃ v, (p.1, v) ∈ m ∧ p.2 = v ++ [err]) ∨
          (err.ErrorType ∉ m.map Prod.fst ∧ p.2 = [err]))) := by
  induction m with
  | nil =>
    simp only [appendToCluster, List.mem_singleton] at hp
    subst hp
    simp
  | cons q rest ih =>
    obtain ⟨k, errs⟩ := q
    have hnd : k ∉ rest.map Prod.fst ∧ NodupKeys rest := by
      simpa [NodupKeys] using hm
    by_cases hk : k = err.ErrorType
    · simp only [appendToCluster, hk, if_true, List.mem_cons] at hp
      rcases hp with hp | hp
      · subst hp
        right
        refine ⟨rfl, Or.inl ⟨errs, ?_, rfl⟩⟩
        simp [hk]
      · left
        refine ⟨List.mem_cons_of_mem _ hp, fun h => hnd.1 ?_⟩
        rw [hk, ← h]
        exact List.mem_map_of_mem Prod.fst hp
    · simp only [appendToCluster, hk, if_false, List.mem_cons] at hp
      rcases hp with hp | hp
      · subst hp
        exact Or.inl ⟨List.mem_cons_self _ _, hk⟩
      · rcases ih hnd.2 hp with h | ⟨h1, h2⟩
        · exact Or.inl ⟨List.mem_cons_of_mem _ h.1, h.2⟩
        · right
          refine ⟨h1, ?_⟩
          rcases h2 with ⟨v, hv, hpv⟩ | ⟨hnot, hpv⟩
          · exact Or.inl ⟨v, List.mem_cons_of_mem _ hv, hpv⟩
          · refine Or.inr ⟨?_, hpv⟩
            simp only [List.map_cons, List.mem_cons, not_or]
            exact ⟨fun h => hk h.symm, hnot⟩

theorem errorsOfType_append (t : ErrorType) (E : List KKTError) (err : KKTError) :
    errorsOfType t (E ++ [err]) =
      if err.ErrorType = t then errorsOfType t E ++ [err] else errorsOfType t E := by
  unfold errorsOfType
  rw [List.filter_append]
  by_cases h : err.ErrorType = t <;> simp [List.filter, h]

theorem appendToCluster_grouped (E : List KKTError) (m : List (ErrorType × List KKTError))
    (err : KKTError) (h : Grouped E m) : Grouped (E ++ [err]) (appendToCluster m err) := by
  obtain ⟨hnd, hval, hcov⟩ := h
  refine ⟨?_, ?_, ?_⟩
  · unfold NodupKeys at hnd ⊢
    rw [appendToCluster_keys]
    split
    · exact hnd
    · next hnot =>
      rw [List.nodup_append]
      refine ⟨hnd, List.nodup_singleton _, ?_⟩
      intro a ha hb
      rw [List.mem_singleton] at hb
      exact hnot (hb ▸ ha)
  · intro p hp
    rw [errorsOfType_append]
    rcases appendToCluster_mem m err hnd p hp with ⟨hpm, hne⟩ | ⟨heq, hcase⟩
    · rw [if_neg (fun h => hne h.symm)]
      exact hval p hpm
    · rw [if_pos heq.symm]
      rcases hcase with ⟨v, hv, hpv⟩ | ⟨hnot, hpv⟩
      · have := (hval (p.1, v) hv).1
        simp only at this
        rw [hpv, this]
        simp
      · have hnil : errorsOfType p.1 E = [] := by
          unfold errorsOfType
          rw [List.filter_eq_nil_iff]
          intro a ha hdec
          have hat : a.ErrorType = p.1 := of_decide_eq_true hdec
          exact hnot (heq ▸ hat ▸ hcov a ha)
        rw [hpv, hnil]
        simp
  · intro e he
    rw [appendToCluster_keys]
    rcases List.mem_append.1 he with h | h
    · split
      · exact hcov e h
      · exact List.mem_append_left _ (hcov e h)
    · rw [List.mem_singleton] at h
      subst h
      split
      · assumption
      · simp

theorem groupByType_append (E : List KKTError) (err : KKTError) :
    groupByType (E ++ [err]) = appendToCluster (groupByType E) err := by
  simp [groupByType, List.foldl_append]

theorem groupByType_grouped (E : List KKTError) : Grouped E (groupByType E) := by
  induction E using List.reverseRecOn with
  | nil => exact ⟨by simp [NodupKeys, groupByType], by simp [groupByType], by simp⟩
  | append_singleton l a ih =>
    rw [groupByType_append]
    exact appendToCluster_grouped l _ a ih

theorem appendToCluster_flatten (m : List (ErrorType × List KKTError)) (err : KKTError) :
    ((appendToCluster m err).map Prod.snd).flatten.Perm ((m.map Prod.snd).flatten ++ [err]) := by
  induction m with
  | nil => simp [appendToCluster]
  | cons q rest ih =>
    obtain ⟨k, errs⟩ := q
    by_cases hk : k = err.ErrorType
    · simp only [appendToCluster, hk, if_true, List.map_cons, List.flatten_cons,
        List.append_assoc]
      exact List.Perm.append_left errs List.perm_append_comm
    · simp only [appendToCluster, hk, if_false, List.map_cons, List.flatten_cons,
        List.append_assoc]
      exact List.Perm.append_left errs ih

theorem groupByType_flatten (E : List KKTError) :
    ((groupByType E).map Prod.snd).flatten.Perm E := by
  induction E using List.reverseRecOn with
  | nil => simp [groupByType]
  | append_singleton l a ih =>
    rw [groupByType_append]
    exact (appendToCluster_flatten _ a).trans (List.Perm.append_right [a] ih)

/-! ## The cluster-building loop -/

theorem clusterLoop_eraseID (fmt : Time → String) (visit : List (ErrorType × List KKTError))
    (clusterID : Int) (result : List ErrorCluster) :
    (clusterLoop fmt visit clusterID result).map eraseID =
      result.map eraseID ++ visit.filterMap (entryCluster fmt) := by
  induction visit generalizing clusterID result with
  | nil => simp [clusterLoop]
  | cons p rest ih =>
    obtain ⟨errType, errs⟩ := p
    cases errs with
    | nil => simp [clusterLoop, ih, entryCluster]
    | cons first more => simp [clusterLoop, ih, entryCluster, eraseID]

theorem clusterLoop_ID (fmt : Time → String) (visit : List (ErrorType × List KKTError))
    (clusterID : Int) (result : List ErrorCluster) :
    (clusterLoop fmt visit clusterID result).map (fun c => c.ID) =
      result.map (fun c => c.ID) ++
        (List.range (visit.filterMap (entryCluster fmt)).length).map
          (fun (i : Nat) => "cluster-" ++ toString (clusterID + (i : Int))) := by
  induction visit generalizing clusterID result with
  | nil => simp [clusterLoop]
  | cons p rest ih =>
    obtain ⟨errType, errs⟩ := p
    cases errs with
    | nil => simp [clusterLoop, ih, entryCluster]
    | cons first more =>
      simp only [clusterLoop, ih, entryCluster, List.filterMap_cons, List.length_cons,
        List.map_append, List.map_cons, List.map_nil, List.append_assoc, List.singleton_append]
      rw [List.range_succ_eq_map]
      simp only [List.map_cons, List.map_map, Nat.cast_zero, add_zero]
      congr 2
      apply List.map_congr_left
      intro i _
      simp only [Function.comp, Nat.cast_succ]
      congr 2
      ring

theorem pick_nil {α : Type} {pick : List α → List α} (hpick : RangeOrder pick) :
    pick [] = [] := List.Perm.eq_nil (hpick [])

theorem clustersOf_eq (fmt : Time → String)
    {pick : List (ErrorType × List KKTError) → List (ErrorType × List KKTError)}
    (hpick : RangeOrder pick) (E : List KKTError) :
    clustersOf fmt pick E = clusterLoop fmt (pick (groupByType E)) 1 [] := by
  cases E with
  | nil => simp [clustersOf, ClusterErrors, groupByType, pick_nil hpick, clusterLoop]
  | cons a l => simp [clustersOf, ClusterErrors]

theorem clustersOf_eraseID (fmt : Time → String)
    {pick : List (ErrorType × List KKTError) → List (ErrorType × List KKTError)}
    (hpick : RangeOrder pick) (E : List KKTError) :
    (clustersOf fmt pick E).map eraseID =
      (pick (groupByType E)).filterMap (entryCluster fmt) := by
  rw [clustersOf_eq fmt hpick, clusterLoop_eraseID]
  simp

theorem clustersOf_ID (fmt : Time → String)
    {pick : List (ErrorType × List KKTError) → List (ErrorType × List KKTError)}
    (hpick : RangeOrder pick) (E : List KKTError) :
    (clustersOf fmt pick E).map (fun c => c.ID) =
      (List.range (clustersOf fmt pick E).length).map
        (fun (i : Nat) => "cluster-" ++ toString (1 + (i : Int))) := by
  have hlen : (clustersOf fmt pick E).length =
      ((pick (groupByType E)).filterMap (entryCluster fmt)).length := by
    rw [← clustersOf_eraseID fmt hpick, List.length_map]
  rw [hlen, clustersOf_eq fmt hpick, clusterLoop_ID]
  simp

/-- Every entry of the grouped map yields a cluster, and the cluster of an entry of type `t`
is determined by the errors of type `t` in the input. -/
theorem entryCluster_grouped (fmt : Time → String) (E : List KKTError)
    (p : ErrorType × List KKTError) (hp : p ∈ groupByType E) :
    ∃ first more, errorsOfType p.1 E = first :: more ∧
      entryCluster fmt p = some
        { ID := ""
          Errors := first :: more
          Pattern := "Errors of type: " ++ toString p.1
          Severity := first.Severity
          Count := (first :: more).length
          FirstSeen := fmt first.Timestamp
          LastSeen := fmt ((first :: more).getLast (List.cons_ne_nil first more)).Timestamp
          Suggestion := generateMockSuggestion p.1 } := by
  obtain ⟨_, hval, _⟩ := groupByType_grouped E
  obtain ⟨h1, h2⟩ := hval p hp
  obtain ⟨t, errs⟩ := p
  simp only at h1 h2 ⊢
  cases errs with
  | nil => exact absurd rfl h2
  | cons first more => exact ⟨first, more, h1.symm, rfl⟩

/-- Description of an arbitrary returned cluster: it is built from the errors of one type. -/
theorem cluster_shape (fmt : Time → String)
    {pick : List (ErrorType × List KKTError) → List (ErrorType × List KKTError)}
    (hpick : RangeOrder pick) (E : List KKTError) (c : ErrorCluster)
    (hc : c ∈ clustersOf fmt pick E) :
    ∃ t first more, errorsOfType t E = first :: more ∧
      c.Errors = first :: more ∧
      c.Pattern = "Errors of type: " ++ toString t ∧
      c.Severity = first.Severity ∧
      c.Count = ((first :: more).length : Int) ∧
      c.FirstSeen = fmt first.Timestamp ∧
      c.LastSeen = fmt ((first :: more).getLast (List.cons_ne_nil first more)).Timestamp ∧
      c.Suggestion = generateMockSuggestion t := by
  have h1 : eraseID c ∈ (clustersOf fmt pick E).map eraseID := List.mem_map_of_mem _ hc
  rw [clustersOf_eraseID fmt hpick, List.mem_filterMap] at h1
  obtain ⟨p, hp, hpc⟩ := h1
  have hp' : p ∈ groupByType E := (hpick _).mem_iff.1 hp
  obtain ⟨first, more, hE, hentry⟩ := entryCluster_grouped fmt E p hp'
  rw [hentry] at hpc
  have hc' := Option.some.inj hpc
  refine ⟨p.1, first, more, hE, ?_, ?_, ?_, ?_, ?_, ?_, ?_⟩
  · exact (congrArg ErrorCluster.Errors hc').symm
  · exact (congrArg ErrorCluster.Pattern hc').symm
  · exact (congrArg ErrorCluster.Severity hc').symm
  · exact (congrArg ErrorCluster.Count hc').symm
  · exact (congrArg ErrorCluster.FirstSeen hc').symm
  · exact (congrArg ErrorCluster.LastSeen hc').symm
  · exact (congrArg ErrorCluster.Suggestion hc').symm

theorem filterMap_map_of_forall {α β γ : Type} (f : α → Option β) (g : β → γ) (h : α → γ)
    (l : List α) (hl : ∀ a ∈ l, ∃ b, f a = some b ∧ g b = h a) :
    (l.filterMap f).map g = l.map h := by
  induction l with
  | nil => rfl
  | cons a rest ih =>
    obtain ⟨b, hb, hg⟩ := hl a (List.mem_cons_self _ _)
    simp only [List.filterMap_cons, hb, List.map_cons, hg]
    rw [ih (fun x hx => hl x (List.mem_cons_of_mem _ hx))]

theorem eraseID_Errors (c : ErrorCluster) : (eraseID c).Errors = c.Errors := rfl

theorem clustersOf_Errors (fmt : Time → String)
    {pick : List (ErrorType × List KKTError) → List (ErrorType × List KKTError)}
    (hpick : RangeOrder pick) (E : List KKTError) :
    (clustersOf fmt pick E).map (fun c => c.Errors) = (pick (groupByType E)).map Prod.snd := by
  have h : (clustersOf fmt pick E).map (fun c => c.Errors) =
      ((clustersOf fmt pick E).map eraseID).map (fun c => c.Errors) := by
    rw [List.map_map]
    rfl
  rw [h, clustersOf_eraseID fmt hpick]
  apply filterMap_map_of_forall
  intro p hp
  obtain ⟨first, more, hE, hentry⟩ :=
    entryCluster_grouped fmt E p ((hpick _).mem_iff.1 hp)
  obtain ⟨_, hval, _⟩ := groupByType_grouped E
  refine ⟨_, hentry, ?_⟩
  rw [(hval p ((hpick _).mem_iff.1 hp)).1, hE]

theorem mem_errorsOfType {t : ErrorType} {E : List KKTError} {e : KKTError} :
    e ∈ errorsOfType t E ↔ e ∈ E ∧ e.ErrorType = t := by
  simp [errorsOfType, List.mem_filter]

theorem groupByType_disjoint (E : List KKTError) :
    (groupByType E).Pairwise (fun p q => List.Disjoint p.2 q.2) := by
  obtain ⟨hnd, hval, _⟩ := groupByType_grouped E
  have hkeys : (groupByType E).Pairwise (fun p q => p.1 ≠ q.1) := by
    unfold NodupKeys List.Nodup at hnd
    exact List.pairwise_map.1 hnd
  refine hkeys.imp_of_mem ?_
  intro p q hp hq hne x hxp hxq
  rw [(hval p hp).1, mem_errorsOfType] at hxp
  rw [(hval q hq).1, mem_errorsOfType] at hxq
  exact hne (hxp.2.symm.trans hxq.2)

/-- C1: whatever the input `E` and whatever order `range` visits the map in, `ClusterErrors`
returns a nil error and clusters whose `Errors` lists partition `E`: their concatenation is a
permutation of `E`, the lists of two different clusters share no error, every error of `E`
is in some cluster; for the empty input the result is the empty list. -/
theorem ClusterErrors_partition (fmt : Time → String)
    (pick : List (ErrorType × List KKTError) → List (ErrorType × List KKTError))
    (hpick : RangeOrder pick) (E : List KKTError) :
    (ClusterErrors fmt pick E).2 = none ∧
      (((ClusterErrors fmt pick E).1.map (fun c => c.Errors)).flatten).Perm E ∧
      ((ClusterErrors fmt pick E).1.map (fun c => c.Errors)).Pairwise List.Disjoint ∧
      (∀ e ∈ E, ∃ c ∈ (ClusterErrors fmt pick E).1, e ∈ c.Errors) ∧
      ClusterErrors fmt pick [] = ([], none) := by
  have hperm : (((ClusterErrors fmt pick E).1.map (fun c => c.Errors)).flatten).Perm E := by
    have h := clustersOf_Errors fmt hpick E
    unfold clustersOf at h
    rw [h]
    exact (((hpick (groupByType E)).map Prod.snd).flatten).trans (groupByType_flatten E)
  refine ⟨?_, hperm, ?_, ?_, ?_⟩
  · unfold ClusterErrors
    split <;> rfl
  · have h := clustersOf_Errors fmt hpick E
    unfold clustersOf at h
    rw [h, List.pairwise_map]
    exact (hpick (groupByType E)).symm.pairwise (groupByType_disjoint E)
      (fun hxy => hxy.symm)
  · intro e he
    have hmem : e ∈ ((ClusterErrors fmt pick E).1.map (fun c => c.Errors)).flatten :=
      hperm.mem_iff.2 he
    rw [List.mem_flatten] at hmem
    obtain ⟨l, hl, hel⟩ := hmem
    rw [List.mem_map] at hl
    obtain ⟨c, hc, rfl⟩ := hl
    exact ⟨c, hc, hel⟩
  · rfl

/-- Witness of C1 on two network errors and one fiscal-drive error, map visited in
insertion order. -/
theorem ClusterErrors_partition_witness :
    RangeOrder (id : List (ErrorType × List KKTError) → List (ErrorType × List KKTError)) ∧
      ((ClusterErrors formatTimestamp id [netLate, fiscalErr, netEarly]).2 = none ∧
      (((ClusterErrors formatTimestamp id [netLate, fiscalErr, netEarly]).1.map
        (fun c => c.Errors)).flatten).Perm [netLate, fiscalErr, netEarly] ∧
      ((ClusterErrors formatTimestamp id [netLate, fiscalErr, netEarly]).1.map
        (fun c => c.Errors)).Pairwise List.Disjoint ∧
      (∀ e ∈ [netLate, fiscalErr, netEarly],
        ∃ c ∈ (ClusterErrors formatTimestamp id [netLate, fiscalErr, netEarly]).1,
          e ∈ c.Errors) ∧
      ClusterErrors formatTimestamp id [] = ([], none)) :=
  ⟨fun m => List.Perm.refl m,
    ClusterErrors_partition formatTimestamp id (fun m => List.Perm.refl m)
      [netLate, fiscalErr, netEarly]⟩

/-- C2, refuted as stated: on a network warning followed by a critical network error the
single returned cluster reports the severity of the warning, which is not the maximum among
its members. -/
theorem ClusterErrors_severity_not_max :
    ¬ ∀ c ∈ (ClusterErrors formatTimestamp id [netLate, netEarly]).1,
      IsMaxSeverity c.Severity c.Errors := by
  decide

/-- C2, amended: every returned cluster is non-empty and its `Severity` is that of the first
error of its `Errors` list; that is the maximum severity among its members exactly when no
later member is more severe than the first. -/
theorem ClusterErrors_severity_first (fmt : Time → String)
    (pick : List (ErrorType × List KKTError) → List (ErrorType × List KKTError))
    (hpick : RangeOrder pick) (E : List KKTError) :
    ∀ c ∈ (ClusterErrors fmt pick E).1, ∃ first more,
      c.Errors = first :: more ∧ c.Severity = first.Severity ∧
        (IsMaxSeverity c.Severity c.Errors ↔ ∀ e ∈ more, e.Severity ≤ first.Severity) := by
  intro c hc
  obtain ⟨t, first, more, _, hErr, _, hSev, _⟩ := cluster_shape fmt hpick E c hc
  refine ⟨first, more, hErr, hSev, ?_⟩
  rw [hErr, hSev]
  constructor
  · intro h e he
    exact h.2 e (List.mem_cons_of_mem _ he)
  · intro h
    refine ⟨⟨first, List.mem_cons_self _ _, rfl⟩, ?_⟩
    intro e he
    rcases List.mem_cons.1 he with rfl | he
    · exact le_refl _
    · exact h e he

/-- Witness of the amended C2 on the refuting input. -/
theorem ClusterErrors_severity_first_witness :
    RangeOrder (id : List (ErrorType × List KKTError) → List (ErrorType × List KKTError)) ∧
      ∀ c ∈ (ClusterErrors formatTimestamp id [netLate, netEarly]).1, ∃ first more,
        c.Errors = first :: more ∧ c.Severity = first.Severity ∧
          (IsMaxSeverity c.Severity c.Errors ↔ ∀ e ∈ more, e.Severity ≤ first.Severity) :=
  ⟨fun m => List.Perm.refl m,
    ClusterErrors_severity_first formatTimestamp id (fun m => List.Perm.refl m)
      [netLate, netEarly]⟩

/-- C3, refuted as stated: on a network error stamped 2024-01-02 followed by one stamped
2024-01-01 the returned cluster has `FirstSeen` on 2024-01-02 and `LastSeen` on 2024-01-01:
`FirstSeen` is not the rendering of the earliest member timestamp, `LastSeen` is not the
rendering of the latest, and `LastSeen` precedes `FirstSeen`. -/
theorem ClusterErrors_seen_not_extremal :
    ∃ c ∈ (ClusterErrors formatTimestamp id [netLate, netEarly]).1,
      IsEarliest 1704067200 c.Errors ∧ IsLatest 1704153600 c.Errors ∧
        c.FirstSeen ≠ formatTimestamp 1704067200 ∧
        c.LastSeen ≠ formatTimestamp 1704153600 ∧
        c.LastSeen < c.FirstSeen := by
  have hlt : netCluster.LastSeen.toList < netCluster.FirstSeen.toList := by decide
  exact ⟨netCluster, by decide, by decide, by decide, by decide, by decide,
    String.lt_iff_toList_lt.2 hlt⟩

theorem sorted_head_le {first : KKTError} {more : List KKTError}
    (h : (first :: more).Pairwise (fun a b => a.Timestamp ≤ b.Timestamp)) :
    ∀ e ∈ first :: more, first.Timestamp ≤ e.Timestamp := by
  intro e he
  rcases List.mem_cons.1 he with rfl | he
  · exact le_refl _
  · exact (List.pairwise_cons.1 h).1 e he

theorem sorted_le_getLast : ∀ (l : List KKTError) (hl : l ≠ []),
    l.Pairwise (fun a b => a.Timestamp ≤ b.Timestamp) →
    ∀ e ∈ l, e.Timestamp ≤ (l.getLast hl).Timestamp := by
  intro l
  induction l with
  | nil => intro hl; exact absurd rfl hl
  | cons a rest ih =>
    intro hl h e he
    cases rest with
    | nil =>
      rw [List.mem_singleton] at he
      subst he
      exact le_refl _
    | cons b rest' =>
      rw [List.getLast_cons (List.cons_ne_nil b rest')]
      have hp := List.pairwise_cons.1 h
      rcases List.mem_cons.1 he with rfl | he
      · exact hp.1 _ (List.getLast_mem _)
      · exact ih (List.cons_ne_nil b rest') hp.2 e he

/-- C3, amended: every returned cluster is non-empty, its `FirstSeen` renders the timestamp
of the first and its `LastSeen` the timestamp of the last error of its `Errors` list (input
order); when the input is in non-decreasing timestamp order these two are the earliest and
the latest timestamp among the members, and the first does not exceed the last. -/
theorem ClusterErrors_seen_first_last (fmt : Time → String)
    (pick : List (ErrorType × List KKTError) → List (ErrorType × List KKTError))
    (hpick : RangeOrder pick) (E : List KKTError) :
    ∀ c ∈ (ClusterErrors fmt pick E).1, ∃ first more,
      c.Errors = first :: more ∧
        c.FirstSeen = fmt first.Timestamp ∧
        c.LastSeen = fmt ((first :: more).getLast (List.cons_ne_nil first more)).Timestamp ∧
        (E.Pairwise (fun a b => a.Timestamp ≤ b.Timestamp) →
          IsEarliest first.Timestamp c.Errors ∧
          IsLatest ((first :: more).getLast (List.cons_ne_nil first more)).Timestamp c.Errors ∧
          first.Timestamp ≤
            ((first :: more).getLast (List.cons_ne_nil first more)).Timestamp) := by
  intro c hc
  obtain ⟨t, first, more, hE, hErr, _, _, _, hFirst, hLast, _⟩ :=
    cluster_shape fmt hpick E c hc
  refine ⟨first, more, hErr, hFirst, hLast, ?_⟩
  intro hsorted
  have hsub : (first :: more).Pairwise (fun a b => a.Timestamp ≤ b.Timestamp) := by
    rw [← hE]
    exact hsorted.filter _
  have hlast := sorted_le_getLast (first :: more) (List.cons_ne_nil first more) hsub
  rw [hErr]
  refine ⟨⟨⟨first, List.mem_cons_self _ _, rfl⟩, sorted_head_le hsub⟩,
    ⟨⟨_, List.getLast_mem _, rfl⟩, hlast⟩, hlast first (List.mem_cons_self _ _)⟩

/-- Witness of the amended C3 on a chronologically ordered input. -/
theorem ClusterErrors_seen_first_last_witness :
    RangeOrder (id : List (ErrorType × List KKTError) → List (ErrorType × List KKTError)) ∧
      [netEarly, netLate, fiscalErr].Pairwise (fun a b => a.Timestamp ≤ b.Timestamp) ∧
      ∀ c ∈ (ClusterErrors formatTimestamp id [netEarly, netLate, fiscalErr]).1,
        ∃ first more, c.Errors = first :: more ∧
          c.FirstSeen = formatTimestamp first.Timestamp ∧
          c.LastSeen = formatTimestamp
            ((first :: more).getLast (List.cons_ne_nil first more)).Timestamp ∧
          IsEarliest first.Timestamp c.Errors ∧
          IsLatest ((first :: more).getLast (List.cons_ne_nil first more)).Timestamp
            c.Errors ∧
          first.Timestamp ≤
            ((first :: more).getLast (List.cons_ne_nil first more)).Timestamp := by
  have hs : [netEarly, netLate, fiscalErr].Pairwise
      (fun a b => a.Timestamp ≤ b.Timestamp) := by decide
  refine ⟨fun m => List.Perm.refl m, hs, ?_⟩
  intro c hc
  obtain ⟨first, more, h1, h2, h3, h4⟩ :=
    ClusterErrors_seen_first_last formatTimestamp id (fun m => List.Perm.refl m)
      [netEarly, netLate, fiscalErr] c hc
  exact ⟨first, more, h1, h2, h3, h4 hs⟩

/-- Two errors share a returned cluster exactly when both are in the input and have the same
type. -/
theorem sameCluster_iff (fmt : Time → String)
    {pick : List (ErrorType × List KKTError) → List (ErrorType × List KKTError)}
    (hpick : RangeOrder pick) (E : List KKTError) (a b : KKTError) :
    sameCluster (clustersOf fmt pick E) a b ↔ a ∈ E ∧ b ∈ E ∧ a.ErrorType = b.ErrorType := by
  constructor
  · rintro ⟨c, hc, ha, hb⟩
    obtain ⟨t, first, more, hE, hErr, _⟩ := cluster_shape fmt hpick E c hc
    rw [hErr, ← hE, mem_errorsOfType] at ha hb
    exact ⟨ha.1, hb.1, ha.2.trans hb.2.symm⟩
  · rintro ⟨ha, hb, hab⟩
    obtain ⟨_, hval, hcov⟩ := groupByType_grouped E
    obtain ⟨p, hp, hpa⟩ := List.mem_map.1 (hcov a ha)
    have hl : p.2 ∈ (clustersOf fmt pick E).map (fun c => c.Errors) := by
      rw [clustersOf_Errors fmt hpick]
      exact List.mem_map_of_mem _ ((hpick _).mem_iff.2 hp)
    obtain ⟨c, hc, hcp⟩ := List.mem_map.1 hl
    refine ⟨c, hc, ?_, ?_⟩
    · rw [hcp, (hval p hp).1, mem_errorsOfType]
      exact ⟨ha, hpa.symm⟩
    · rw [hcp, (hval p hp).1, mem_errorsOfType]
      exact ⟨hb, hab.symm.trans hpa.symm⟩

/-- C8: for an input `E` and any permutation `E'` of it, and whatever the two map iteration
orders, two errors lie in one cluster of `ClusterErrors(E)` if and only if they lie in one
cluster of `ClusterErrors(E')`. -/
theorem ClusterErrors_input_order_irrelevant (fmt : Time → String)
    (pick pick' : List (ErrorType × List KKTError) → List (ErrorType × List KKTError))
    (hpick : RangeOrder pick) (hpick' : RangeOrder pick') (E E' : List KKTError)
    (hperm : E.Perm E') (a b : KKTError) :
    sameCluster (ClusterErrors fmt pick E).1 a b ↔
      sameCluster (ClusterErrors fmt pick' E').1 a b := by
  have h1 := sameCluster_iff fmt hpick E a b
  have h2 := sameCluster_iff fmt hpick' E' a b
  unfold clustersOf at h1 h2
  rw [h1, h2, hperm.mem_iff, hperm.mem_iff]

/-- Witness of C8: an input and its reversal, the map visited in insertion order in one run
and in reverse insertion order in the other; the two network errors share a cluster in
both. -/
theorem ClusterErrors_input_order_irrelevant_witness :
    RangeOrder (id : List (ErrorType × List KKTError) → List (ErrorType × List KKTError)) ∧
      RangeOrder
        (List.reverse : List (ErrorType × List KKTError) → List (ErrorType × List KKTError)) ∧
      [netLate, fiscalErr, netEarly].Perm [netEarly, fiscalErr, netLate] ∧
      (sameCluster (ClusterErrors formatTimestamp id [netLate, fiscalErr, netEarly]).1
          netLate netEarly ↔
        sameCluster
          (ClusterErrors formatTimestamp List.reverse [netEarly, fiscalErr, netLate]).1
          netLate netEarly) :=
  ⟨fun m => List.Perm.refl m, fun m => List.reverse_perm m,
    List.reverse_perm [netEarly, fiscalErr, netLate],
    ClusterErrors_input_order_irrelevant formatTimestamp id List.reverse
      (fun m => List.Perm.refl m) (fun m => List.reverse_perm m)
      [netLate, fiscalErr, netEarly] [netEarly, fiscalErr, netLate]
      (List.reverse_perm [netEarly, fiscalErr, netLate]) netLate netEarly⟩

/-- C9, refuted as stated: for the input `[netLate, fiscalErr]` the run that visits the map
in insertion order and the run that visits it in reverse order are both admissible, yet
their outputs are not the same clusters in a different order: the network cluster is
`cluster-1` in the first run and `cluster-2` in the second. -/
theorem ClusterErrors_runs_differ :
    RangeOrder (id : List (ErrorType × List KKTError) → List (ErrorType × List KKTError)) ∧
      RangeOrder
        (List.reverse : List (ErrorType × List KKTError) → List (ErrorType × List KKTError)) ∧
      ¬ (ClusterErrors formatTimestamp id [netLate, fiscalErr]).1.Perm
          (ClusterErrors formatTimestamp List.reverse [netLate, fiscalErr]).1 := by
  refine ⟨fun m => List.Perm.refl m, fun m => List.reverse_perm m, ?_⟩
  decide

/-- C9, amended: for a fixed input any two runs of `ClusterErrors` return the same clusters
up to the order of the output list and up to the `ID` field: with `ID` blanked one output is
a permutation of the other, and in each run the `ID`s are `cluster-1`, `cluster-2`, ... in
output order. -/
theorem ClusterErrors_deterministic_up_to_ID (fmt : Time → String)
    (pick pick' : List (ErrorType × List KKTError) → List (ErrorType × List KKTError))
    (hpick : RangeOrder pick) (hpick' : RangeOrder pick') (E : List KKTError) :
    ((ClusterErrors fmt pick E).1.map eraseID).Perm
        ((ClusterErrors fmt pick' E).1.map eraseID) ∧
      (ClusterErrors fmt pick E).1.map (fun c => c.ID) =
        (List.range (ClusterErrors fmt pick E).1.length).map
          (fun (i : Nat) => "cluster-" ++ toString (1 + (i : Int))) ∧
      (ClusterErrors fmt pick' E).1.map (fun c => c.ID) =
        (List.range (ClusterErrors fmt pick' E).1.length).map
          (fun (i : Nat) => "cluster-" ++ toString (1 + (i : Int))) := by
  refine ⟨?_, clustersOf_ID fmt hpick E, clustersOf_ID fmt hpick' E⟩
  have h1 := clustersOf_eraseID fmt hpick E
  have h2 := clustersOf_eraseID fmt hpick' E
  unfold clustersOf at h1 h2
  rw [h1, h2]
  exact ((hpick _).trans (hpick' _).symm).filterMap _

/-- Witness of the amended C9 on the refuting pair of runs. -/
theorem ClusterErrors_deterministic_up_to_ID_witness :
    RangeOrder (id : List (ErrorType × List KKTError) → List (ErrorType × List KKTError)) ∧
      RangeOrder
        (List.reverse : List (ErrorType × List KKTError) → List (ErrorType × List KKTError)) ∧
      ((ClusterErrors formatTimestamp id [netLate, fiscalErr]).1.map eraseID).Perm
        ((ClusterErrors formatTimestamp List.reverse [netLate, fiscalErr]).1.map eraseID) :=
  ⟨fun m => List.Perm.refl m, fun m => List.reverse_perm m,
    (ClusterErrors_deterministic_up_to_ID formatTimestamp id List.reverse
      (fun m => List.Perm.refl m) (fun m => List.reverse_perm m) [netLate, fiscalErr]).1⟩

theorem forall₂_map_filterMap {α β : Type} (f : α → Option β) (R : α → β → Prop)
    (l : List α) (hl : ∀ a ∈ l, ∃ b, f a = some b ∧ R a b) :
    List.Forall₂ R l (l.filterMap f) := by
  induction l with
  | nil => exact List.Forall₂.nil
  | cons a rest ih =>
    obtain ⟨b, hb, hR⟩ := hl a (List.mem_cons_self _ _)
    simp only [List.filterMap_cons, hb]
    exact List.Forall₂.cons hR (ih (fun x hx => hl x (List.mem_cons_of_mem _ hx)))

/-- The returned clusters correspond one to one, in output order, to the entries of the
grouped map in the order `range` visits them. -/
theorem clustersOf_forall₂ (fmt : Time → String)
    {pick : List (ErrorType × List KKTError) → List (ErrorType × List KKTError)}
    (hpick : RangeOrder pick) (E : List KKTError) :
    List.Forall₂
      (fun (t : ErrorType) (c : ErrorCluster) =>
        c.Errors = errorsOfType t E ∧ c.Errors ≠ [] ∧ c.Count = (c.Errors.length : Int))
      ((pick (groupByType E)).map Prod.fst) (clustersOf fmt pick E) := by
  have h : List.Forall₂
      (fun (p : ErrorType × List KKTError) (c : ErrorCluster) =>
        c.Errors = errorsOfType p.1 E ∧ c.Errors ≠ [] ∧ c.Count = (c.Errors.length : Int))
      (pick (groupByType E)) ((clustersOf fmt pick E).map eraseID) := by
    rw [clustersOf_eraseID fmt hpick]
    apply forall₂_map_filterMap
    intro p hp
    obtain ⟨first, more, hE, hentry⟩ :=
      entryCluster_grouped fmt E p ((hpick _).mem_iff.1 hp)
    exact ⟨_, hentry, hE.symm, List.cons_ne_nil _ _, rfl⟩
  rw [List.forall₂_map_right_iff] at h
  rw [List.forall₂_map_left_iff]
  exact h

/-- C10: `ClusterErrors` returns exactly one cluster per distinct `ErrorType` of the input:
the returned list matches, position by position, a duplicate-free list of exactly the types
occurring in the input, the cluster of type `t` holding exactly the input errors of type `t`
(in input order), non-empty, with `Count = len(Errors)`.  In particular two network errors
and one fiscal-drive error give exactly two clusters, with counts 2 and 1. -/
theorem ClusterErrors_one_cluster_per_type (fmt : Time → String)
    (pick : List (ErrorType × List KKTError) → List (ErrorType × List KKTError))
    (hpick : RangeOrder pick) (E : List KKTError) :
    (∃ ts : List ErrorType, ts.Nodup ∧ (∀ t, t ∈ ts ↔ ∃ e ∈ E, e.ErrorType = t) ∧
      List.Forall₂
        (fun (t : ErrorType) (c : ErrorCluster) =>
          c.Errors = errorsOfType t E ∧ c.Errors ≠ [] ∧ c.Count = (c.Errors.length : Int))
        ts (ClusterErrors fmt pick E).1) ∧
      ∀ a b c : KKTError, a.ErrorType = ErrorTypeNetwork → b.ErrorType = ErrorTypeNetwork →
        c.ErrorType = ErrorTypeFiscalDrive →
        (ClusterErrors fmt pick [a, b, c]).1.length = 2 ∧
          ((ClusterErrors fmt pick [a, b, c]).1.map (fun k => k.Count)).Perm [2, 1] := by
  constructor
  · obtain ⟨hnd, hval, hcov⟩ := groupByType_grouped E
    refine ⟨(pick (groupByType E)).map Prod.fst, ?_, ?_, clustersOf_forall₂ fmt hpick E⟩
    · exact ((hpick _).map Prod.fst).nodup_iff.2 hnd
    · intro t
      rw [((hpick _).map Prod.fst).mem_iff]
      constructor
      · intro ht
        obtain ⟨p, hp, rfl⟩ := List.mem_map.1 ht
        obtain ⟨h1, h2⟩ := hval p hp
        cases hq : p.2 with
        | nil => exact absurd hq h2
        | cons first more =>
          have hmem : first ∈ errorsOfType p.1 E := by
            rw [← h1, hq]
            exact List.mem_cons_self _ _
          rw [mem_errorsOfType] at hmem
          exact ⟨first, hmem.1, hmem.2⟩
      · rintro ⟨e, he, rfl⟩
        exact hcov e he
  · intro a b c ha hb hc
    have hg : groupByType [a, b, c] =
        [(ErrorTypeNetwork, [a, b]), (ErrorTypeFiscalDrive, [c])] := by
      simp [groupByType, appendToCluster, ha, hb, hc, ErrorTypeNetwork, ErrorTypeFiscalDrive]
    have hcount : (clustersOf fmt pick [a, b, c]).map (fun k => k.Count) =
        ((clustersOf fmt pick [a, b, c]).map eraseID).map (fun k => k.Count) := by
      rw [List.map_map]
      rfl
    have hp : ((clustersOf fmt pick [a, b, c]).map (fun k => k.Count)).Perm [2, 1] := by
      rw [hcount, clustersOf_eraseID fmt hpick]
      have h1 := (((hpick (groupByType [a, b, c])).filterMap (entryCluster fmt)).map
        (fun k => k.Count))
      have h2 : ((groupByType [a, b, c]).filterMap (entryCluster fmt)).map
          (fun k => k.Count) = [2, 1] := by
        rw [hg]
        rfl
      rw [h2] at h1
      exact h1
    refine ⟨?_, hp⟩
    have := hp.length_eq
    simpa using this

/-- Witness of C10 on the input of the repository's test: two network errors and one
fiscal-drive error. -/
theorem ClusterErrors_one_cluster_per_type_witness :
    RangeOrder (id : List (ErrorType × List KKTError) → List (ErrorType × List KKTError)) ∧
      netLate.ErrorType = ErrorTypeNetwork ∧ netEarly.ErrorType = ErrorTypeNetwork ∧
      fiscalErr.ErrorType = ErrorTypeFiscalDrive ∧
      (ClusterErrors formatTimestamp id [netLate, netEarly, fiscalErr]).1.length = 2 ∧
      ((ClusterErrors formatTimestamp id [netLate, netEarly, fiscalErr]).1.map
        (fun k => k.Count)).Perm [2, 1] :=
  ⟨fun m => List.Perm.refl m, rfl, rfl, rfl,
    (ClusterErrors_one_cluster_per_type formatTimestamp id (fun m => List.Perm.refl m)
      [netLate, netEarly, fiscalErr]).2 netLate netEarly fiscalErr rfl rfl rfl⟩

/-! ## The exporter update -/

/-- The error-gauge loop of `UpdateMetrics` acting on the error vector alone. -/
theorem errorLoop_eq {F : Type} (toF : Int → F) (kid : String)
    (visit : List (ErrorType × Int)) (e : Exporter F) :
    visit.foldl
        (fun (e : Exporter F) (entry : ErrorType × Int) =>
          { e with
            kktErrorsTotal :=
              e.kktErrorsTotal.set (kid, errorTypeName entry.1) (toF entry.2) })
        e =
      { e with
        kktErrorsTotal :=
          visit.foldl
            (fun (vec : GaugeVec (String × String) F) (entry : ErrorType × Int) =>
              vec.set (kid, errorTypeName entry.1) (toF entry.2))
            e.kktErrorsTotal } := by
  induction visit generalizing e with
  | nil => rfl
  | cons entry rest ih => simp only [List.foldl_cons, ih]

theorem UpdateMetrics_eq {F : Type} (toF : Int → F)
    (pick : List (ErrorType × Int) → List (ErrorType × Int))
    (e : Exporter F) (s : Metrics F) :
    UpdateMetrics toF pick e s =
      { kktStatus := e.kktStatus.set s.KKTID (toF s.Status)
        kktDocumentsTotal := e.kktDocumentsTotal.set s.KKTID (toF s.DocumentsTotal)
        kktErrorsTotal := errorLoop toF s.KKTID (pick s.ErrorsByType) e.kktErrorsTotal
        kktOFDSyncStatus := e.kktOFDSyncStatus.set s.KKTID (toF s.OFDSyncStatus)
        kktShiftStatus := e.kktShiftStatus.set s.KKTID (toF s.ShiftStatus)
        kktLastDocumentTime := e.kktLastDocumentTime.set s.KKTID (toF s.LastDocumentTime)
        kktFDMemoryUsage := e.kktFDMemoryUsage.set s.KKTID s.FDMemoryUsage
        kktDocumentsPerHour := e.kktDocumentsPerHour.set s.KKTID s.DocumentsPerHour
        kktAvgSyncTime := e.kktAvgSyncTime.set s.KKTID s.AverageSyncTime } := by
  unfold UpdateMetrics
  simp only [errorLoop_eq]
  rfl

theorem set_same {L F : Type} [DecidableEq L] (vec : GaugeVec L F) (lvs : L) (v : F) :
    vec.set lvs v lvs = some v := by
  simp [GaugeVec.set]

theorem set_other {L F : Type} [DecidableEq L] (vec : GaugeVec L F) (lvs x : L) (v : F)
    (h : x ≠ lvs) : vec.set lvs v x = vec x := by
  simp [GaugeVec.set, Function.update_noteq h]

theorem set_set {L F : Type} [DecidableEq L] (vec : GaugeVec L F) (lvs : L) (v : F) :
    (vec.set lvs v).set lvs v = vec.set lvs v := by
  simp [GaugeVec.set]

theorem errorLoop_snoc {F : Type} (toF : Int → F) (kid : String)
    (visit : List (ErrorType × Int)) (entry : ErrorType × Int)
    (vec : GaugeVec (String × String) F) :
    errorLoop toF kid (visit ++ [entry]) vec =
      (errorLoop toF kid visit vec).set (kid, errorTypeName entry.1) (toF entry.2) := by
  simp [errorLoop, List.foldl_append]

/-- A label tuple that no visited entry writes keeps its value. -/
theorem errorLoop_untouched {F : Type} (toF : Int → F) (kid : String)
    (visit : List (ErrorType × Int)) (vec : GaugeVec (String × String) F)
    (x : String × String) (hx : ∀ entry ∈ visit, (kid, errorTypeName entry.1) ≠ x) :
    errorLoop toF kid visit vec x = vec x := by
  induction visit using List.reverseRecOn with
  | nil => rfl
  | append_singleton l a ih =>
    rw [errorLoop_snoc, set_other _ _ _ _ (fun h => hx a (by simp) h.symm)]
    exact ih (fun entry he => hx entry (List.mem_append_left _ he))

/-- A label tuple that some visited entry writes ends up holding the count of one such
entry, the same one whatever the vector held before the loop. -/
theorem errorLoop_touched {F : Type} (toF : Int → F) (kid : String)
    (visit : List (ErrorType × Int)) (x : String × String)
    (hx : ∃ entry ∈ visit, (kid, errorTypeName entry.1) = x) :
    ∃ entry ∈ visit, (kid, errorTypeName entry.1) = x ∧
      ∀ vec : GaugeVec (String × String) F,
        errorLoop toF kid visit vec x = some (toF entry.2) := by
  induction visit using List.reverseRecOn with
  | nil =>
    obtain ⟨entry, he, _⟩ := hx
    exact absurd he (List.not_mem_nil _)
  | append_singleton l a ih =>
    by_cases ha : (kid, errorTypeName a.1) = x
    · refine ⟨a, by simp, ha, fun vec => ?_⟩
      rw [errorLoop_snoc, ← ha, set_same]
    · obtain ⟨entry, he, hex⟩ := hx
      have hl : entry ∈ l := by
        rcases List.mem_append.1 he with h | h
        · exact h
        · rw [List.mem_singleton] at h
          subst h
          exact absurd hex ha
      obtain ⟨en, hen, henx, hval⟩ := ih ⟨entry, hl, hex⟩
      refine ⟨en, List.mem_append_left _ hen, henx, fun vec => ?_⟩
      rw [errorLoop_snoc, set_other _ _ _ _ (fun h => ha h.symm)]
      exact hval vec

theorem UpdateMetrics_scalars {F : Type} (toF : Int → F)
    (pick : List (ErrorType × Int) → List (ErrorType × Int))
    (e : Exporter F) (s : Metrics F) : ScalarsOf toF (UpdateMetrics toF pick e s) s := by
  rw [UpdateMetrics_eq]
  exact ⟨set_same _ _ _, set_same _ _ _, set_same _ _ _, set_same _ _ _, set_same _ _ _,
    set_same _ _ _, set_same _ _ _, set_same _ _ _⟩

theorem UpdateMetrics_errors {F : Type} (toF : Int → F)
    {pick : List (ErrorType × Int) → List (ErrorType × Int)} (hpick : RangeOrder pick)
    (e : Exporter F) (s : Metrics F) : ErrorsOf toF (UpdateMetrics toF pick e s) s := by
  intro t c htc
  rw [UpdateMetrics_eq]
  obtain ⟨en, hen, henx, hval⟩ := errorLoop_touched toF s.KKTID (pick s.ErrorsByType)
    (s.KKTID, errorTypeName t) ⟨(t, c), (hpick _).mem_iff.2 htc, rfl⟩
  refine ⟨en.1, en.2, (hpick _).mem_iff.1 hen, ?_, hval _⟩
  exact (Prod.ext_iff.1 henx).2

theorem UpdateMetrics_frame {F : Type} (toF : Int → F)
    (pick : List (ErrorType × Int) → List (ErrorType × Int))
    (e : Exporter F) (s : Metrics F) (d : String) (hd : d ≠ s.KKTID) :
    SameDevice d e (UpdateMetrics toF pick e s) := by
  rw [UpdateMetrics_eq]
  refine ⟨set_other _ _ _ _ hd, set_other _ _ _ _ hd, ?_, set_other _ _ _ _ hd,
    set_other _ _ _ _ hd, set_other _ _ _ _ hd, set_other _ _ _ _ hd, set_other _ _ _ _ hd,
    set_other _ _ _ _ hd⟩
  intro l
  apply errorLoop_untouched
  intro entry _ h
  exact hd (Prod.ext_iff.1 h).1.symm

/-- C4, refuted as stated: device `kkt-001` first reports five network errors and then a
snapshot with an empty `ErrorsByType`; after the second `UpdateMetrics` the series
`kkt_errors_total{kkt_id="kkt-001", error_type="network"}` is still exposed with the value 5
of the earlier snapshot, although the latest snapshot has no network entry. -/
theorem UpdateMetrics_stale_error_series :
    snapClean.KKTID = "kkt-001" ∧ snapNetwork.KKTID = "kkt-001" ∧
      snapClean.ErrorsByType = [] ∧
      (UpdateMetrics id id (UpdateMetrics id id (New Int) snapNetwork) snapClean).kktErrorsTotal
        ("kkt-001", "network") = some 5 := by
  decide

/-- C4, amended: after `UpdateMetrics(s)` the eight scalar series of device `s.KKTID` hold
the values of `s`; for every error type `t` present in `s.ErrorsByType` the series
`kkt_errors_total{kkt_id = s.KKTID, error_type = errorTypeName t}` exists and holds the count
`s` gives to a type with that label, which is `s.ErrorsByType[t]` whenever all present types
with that label carry that count; every error series of the device whose label no present
type has is left exactly as it was before the call. -/
theorem UpdateMetrics_series {F : Type} (toF : Int → F)
    (pick : List (ErrorType × Int) → List (ErrorType × Int)) (hpick : RangeOrder pick)
    (e : Exporter F) (s : Metrics F) :
    ScalarsOf toF (UpdateMetrics toF pick e s) s ∧
      ErrorsOf toF (UpdateMetrics toF pick e s) s ∧
      (∀ t c, (t, c) ∈ s.ErrorsByType →
        (∀ t' c', (t', c') ∈ s.ErrorsByType → errorTypeName t' = errorTypeName t → c' = c) →
        (UpdateMetrics toF pick e s).kktErrorsTotal (s.KKTID, errorTypeName t) =
          some (toF c)) ∧
      (∀ l, (∀ t c, (t, c) ∈ s.ErrorsByType → errorTypeName t ≠ l) →
        (UpdateMetrics toF pick e s).kktErrorsTotal (s.KKTID, l) =
          e.kktErrorsTotal (s.KKTID, l)) := by
  refine ⟨UpdateMetrics_scalars toF pick e s, UpdateMetrics_errors toF hpick e s, ?_, ?_⟩
  · intro t c htc huniq
    obtain ⟨t', c', hmem, hlabel, hval⟩ := UpdateMetrics_errors toF hpick e s t c htc
    rw [hval, huniq t' c' hmem hlabel]
  · intro l hl
    rw [UpdateMetrics_eq]
    apply errorLoop_untouched
    intro entry he h
    exact hl entry.1 entry.2 ((hpick _).mem_iff.1 he) (Prod.ext_iff.1 h).2

/-- Witness of the amended C4: the clean snapshot applied over the network snapshot. -/
theorem UpdateMetrics_series_witness :
    RangeOrder (id : List (ErrorType × Int) → List (ErrorType × Int)) ∧
      ScalarsOf id
        (UpdateMetrics id id (UpdateMetrics id id (New Int) snapNetwork) snapClean)
        snapClean :=
  ⟨fun m => List.Perm.refl m,
    (UpdateMetrics_series id id (fun m => List.Perm.refl m)
      (UpdateMetrics id id (New Int) snapNetwork) snapClean).1⟩

/-- C5, refuted as stated: the snapshot `snapUnknown` holds the error types 0 and 8, both
labelled `unknown`.  A first `UpdateMetrics` that visits them in the order 0, 8 leaves
`kkt_errors_total{error_type="unknown"}` at 7; a second application of the same snapshot
that visits them in the order 8, 0 changes it to 3. -/
theorem UpdateMetrics_not_idempotent :
    RangeOrder (id : List (ErrorType × Int) → List (ErrorType × Int)) ∧
      RangeOrder (List.reverse : List (ErrorType × Int) → List (ErrorType × Int)) ∧
      errorTypeName 0 = errorTypeName 8 ∧
      (UpdateMetrics id id (New Int) snapUnknown).kktErrorsTotal ("kkt-001", "unknown") =
        some 7 ∧
      (UpdateMetrics id List.reverse (UpdateMetrics id id (New Int) snapUnknown)
        snapUnknown).kktErrorsTotal ("kkt-001", "unknown") = some 3 := by
  refine ⟨fun m => List.Perm.refl m, fun m => List.reverse_perm m, ?_, ?_, ?_⟩ <;> decide

/-- C5, amended: applying `UpdateMetrics(s)` a second time leaves the exporter exactly as
the first application left it (a) whatever the two iteration orders, provided the error
types of `s` that share a label carry equal counts, and (b) for every snapshot, provided the
second application visits `ErrorsByType` in the same order as the first. -/
theorem UpdateMetrics_idempotent {F : Type} (toF : Int → F) (e : Exporter F)
    (s : Metrics F) :
    (∀ pick pick' : List (ErrorType × Int) → List (ErrorType × Int),
      RangeOrder pick → RangeOrder pick' →
      (∀ t c t' c', (t, c) ∈ s.ErrorsByType → (t', c') ∈ s.ErrorsByType →
        errorTypeName t = errorTypeName t' → c = c') →
      UpdateMetrics toF pick' (UpdateMetrics toF pick e s) s = UpdateMetrics toF pick e s) ∧
    (∀ pick : List (ErrorType × Int) → List (ErrorType × Int),
      UpdateMetrics toF pick (UpdateMetrics toF pick e s) s = UpdateMetrics toF pick e s) := by
  constructor
  · intro pick pick' hpick hpick' hcons
    rw [UpdateMetrics_eq toF pick' _ s, UpdateMetrics_eq toF pick e s]
    simp only [set_set]
    congr 1
    funext x
    by_cases hx : ∃ entry ∈ s.ErrorsByType, (s.KKTID, errorTypeName entry.1) = x
    · obtain ⟨en, hen, henx⟩ := hx
      obtain ⟨a, ha, hax, hva⟩ := errorLoop_touched toF s.KKTID
        (pick s.ErrorsByType) x ⟨en, (hpick _).mem_iff.2 hen, henx⟩
      obtain ⟨b, hb, hbx, hvb⟩ := errorLoop_touched toF s.KKTID
        (pick' s.ErrorsByType) x ⟨en, (hpick' _).mem_iff.2 hen, henx⟩
      rw [hvb, hva]
      have hlabel : errorTypeName b.1 = errorTypeName a.1 :=
        (Prod.ext_iff.1 (hbx.trans hax.symm)).2
      rw [hcons b.1 b.2 a.1 a.2 ((hpick' _).mem_iff.1 hb) ((hpick _).mem_iff.1 ha) hlabel]
    · rw [errorLoop_untouched toF s.KKTID (pick' s.ErrorsByType) _ x]
      intro entry he h
      exact hx ⟨entry, (hpick' _).mem_iff.1 he, h⟩
  · intro pick
    rw [UpdateMetrics_eq toF pick _ s, UpdateMetrics_eq toF pick e s]
    simp only [set_set]
    congr 1
    funext x
    by_cases hx : ∃ entry ∈ pick s.ErrorsByType, (s.KKTID, errorTypeName entry.1) = x
    · obtain ⟨a, _, _, hva⟩ := errorLoop_touched toF s.KKTID
        (pick s.ErrorsByType) x hx
      rw [hva, hva]
    · rw [errorLoop_untouched toF s.KKTID (pick s.ErrorsByType) _ x]
      intro entry he h
      exact hx ⟨entry, he, h⟩

/-- Witness of the amended C5: the network snapshot applied twice, the map visited in
insertion order by the first application and in reverse order by the second. -/
theorem UpdateMetrics_idempotent_witness :
    RangeOrder (id : List (ErrorType × Int) → List (ErrorType × Int)) ∧
      RangeOrder (List.reverse : List (ErrorType × Int) → List (ErrorType × Int)) ∧
      (∀ t c t' c', (t, c) ∈ snapNetwork.ErrorsByType → (t', c') ∈ snapNetwork.ErrorsByType →
        errorTypeName t = errorTypeName t' → c = c') ∧
      UpdateMetrics id List.reverse (UpdateMetrics id id (New Int) snapNetwork) snapNetwork =
        UpdateMetrics id id (New Int) snapNetwork := by
  have hcons : ∀ t c t' c', (t, c) ∈ snapNetwork.ErrorsByType →
      (t', c') ∈ snapNetwork.ErrorsByType → errorTypeName t = errorTypeName t' → c = c' := by
    intro t c t' c' h h' _
    simp only [snapNetwork, List.mem_singleton, Prod.mk.injEq] at h h'
    rw [h.2, h'.2]
  exact ⟨fun m => List.Perm.refl m, fun m => List.reverse_perm m, hcons,
    (UpdateMetrics_idempotent id (New Int) snapNetwork).1 id List.reverse
      (fun m => List.Perm.refl m) (fun m => List.reverse_perm m) hcons⟩

theorem ScalarsOf_of_sameDevice {F : Type} (toF : Int → F) (e e' : Exporter F)
    (s : Metrics F) (h : SameDevice s.KKTID e e') (hs : ScalarsOf toF e s) :
    ScalarsOf toF e' s := by
  obtain ⟨h1, h2, _, h4, h5, h6, h7, h8, h9⟩ := h
  obtain ⟨s1, s2, s4, s5, s6, s7, s8, s9⟩ := hs
  exact ⟨h1.trans s1, h2.trans s2, h4.trans s4, h5.trans s5, h6.trans s6, h7.trans s7,
    h8.trans s8, h9.trans s9⟩

theorem ErrorsOf_of_sameDevice {F : Type} (toF : Int → F) (e e' : Exporter F)
    (s : Metrics F) (h : SameDevice s.KKTID e e') (hs : ErrorsOf toF e s) :
    ErrorsOf toF e' s := by
  intro t c htc
  obtain ⟨t', c', hmem, hlabel, hval⟩ := hs t c htc
  exact ⟨t', c', hmem, hlabel, (h.2.2.1 _).trans hval⟩

theorem runUpdates_snoc {F : Type} (toF : Int → F) (e : Exporter F)
    (calls : List ((List (ErrorType × Int) → List (ErrorType × Int)) × Metrics F))
    (call : (List (ErrorType × Int) → List (ErrorType × Int)) × Metrics F) :
    runUpdates toF e (calls ++ [call]) =
      UpdateMetrics toF call.1 (runUpdates toF e calls) call.2 := by
  simp [runUpdates, List.foldl_append]

theorem SameDevice_trans {F : Type} (d : String) (e₁ e₂ e₃ : Exporter F)
    (h₁ : SameDevice d e₁ e₂) (h₂ : SameDevice d e₂ e₃) : SameDevice d e₁ e₃ := by
  obtain ⟨a1, a2, a3, a4, a5, a6, a7, a8, a9⟩ := h₁
  obtain ⟨b1, b2, b3, b4, b5, b6, b7, b8, b9⟩ := h₂
  exact ⟨b1.trans a1, b2.trans a2, fun l => (b3 l).trans (a3 l), b4.trans a4, b5.trans a5,
    b6.trans a6, b7.trans a7, b8.trans a8, b9.trans a9⟩

/-- A run none of whose snapshots is of device `d` leaves every series of `d` as it was. -/
theorem runUpdates_frame {F : Type} (toF : Int → F) (e : Exporter F) (d : String)
    (calls : List ((List (ErrorType × Int) → List (ErrorType × Int)) × Metrics F))
    (hd : ∀ call ∈ calls, d ≠ call.2.KKTID) :
    SameDevice d e (runUpdates toF e calls) := by
  induction calls using List.reverseRecOn with
  | nil => exact ⟨rfl, rfl, fun _ => rfl, rfl, rfl, rfl, rfl, rfl, rfl⟩
  | append_singleton l last ih =>
    rw [runUpdates_snoc]
    exact SameDevice_trans d _ _ _ (ih (fun call hc => hd call (List.mem_append_left _ hc)))
      (UpdateMetrics_frame toF last.1 _ last.2 d (hd last (by simp)))

/-- An error series of the updated device whose label no type of the snapshot has is left
as it was. -/
theorem UpdateMetrics_untouched {F : Type} (toF : Int → F)
    {pick : List (ErrorType × Int) → List (ErrorType × Int)} (hpick : RangeOrder pick)
    (e : Exporter F) (s : Metrics F) (l : String)
    (hl : ∀ t c, (t, c) ∈ s.ErrorsByType → errorTypeName t ≠ l) :
    (UpdateMetrics toF pick e s).kktErrorsTotal (s.KKTID, l) =
      e.kktErrorsTotal (s.KKTID, l) := by
  rw [UpdateMetrics_eq]
  apply errorLoop_untouched
  intro entry he h
  exact hl entry.1 entry.2 ((hpick _).mem_iff.1 he) (Prod.ext_iff.1 h).2

/-- After a run of updates with pairwise distinct device ids every device shows the scalar
values and the error counts of its own snapshot, and its error series under labels its
snapshot does not name are those the run started from. -/
theorem runUpdates_own_snapshot {F : Type} (toF : Int → F) (e : Exporter F) :
    ∀ calls : List ((List (ErrorType × Int) → List (ErrorType × Int)) × Metrics F),
      (∀ call ∈ calls, RangeOrder call.1) →
      (calls.map (fun call => call.2.KKTID)).Nodup →
      ∀ call ∈ calls,
        ScalarsOf toF (runUpdates toF e calls) call.2 ∧
          ErrorsOf toF (runUpdates toF e calls) call.2 ∧
          (∀ l, (∀ t c, (t, c) ∈ call.2.ErrorsByType → errorTypeName t ≠ l) →
            (runUpdates toF e calls).kktErrorsTotal (call.2.KKTID, l) =
              e.kktErrorsTotal (call.2.KKTID, l)) := by
  intro calls
  induction calls using List.reverseRecOn with
  | nil =>
    intro _ _ call hc
    exact absurd hc (List.not_mem_nil _)
  | append_singleton l last ih =>
    intro hpick hnd call hc
    rw [runUpdates_snoc]
    rw [List.map_append, List.nodup_append] at hnd
    obtain ⟨hndl, _, hdisj⟩ := hnd
    rcases List.mem_append.1 hc with h | h
    · have hne : call.2.KKTID ≠ last.2.KKTID := by
        intro heq
        exact hdisj (List.mem_map_of_mem (fun call => call.2.KKTID) h)
          (by simp [heq])
      have hframe := UpdateMetrics_frame toF last.1 (runUpdates toF e l) last.2
        call.2.KKTID hne
      obtain ⟨hs, he, hu⟩ :=
        ih (fun c hcl => hpick c (List.mem_append_left _ hcl)) hndl call h
      refine ⟨ScalarsOf_of_sameDevice toF _ _ _ hframe hs,
        ErrorsOf_of_sameDevice toF _ _ _ hframe he, ?_⟩
      intro lab hlab
      exact (hframe.2.2.1 lab).trans (hu lab hlab)
    · rw [List.mem_singleton] at h
      subst h
      have hp : RangeOrder call.1 := hpick call (by simp)
      refine ⟨UpdateMetrics_scalars toF _ _ _, UpdateMetrics_errors toF hp _ _, ?_⟩
      intro lab hlab
      rw [UpdateMetrics_untouched toF hp _ _ lab hlab]
      have hothers : ∀ c ∈ l, call.2.KKTID ≠ c.2.KKTID := by
        intro c hcl heq
        exact hdisj (List.mem_map_of_mem (fun call => call.2.KKTID) hcl)
          (by simp [heq])
      exact (runUpdates_frame toF e call.2.KKTID l hothers).2.2.1 lab

/-- C6, refuted as stated: in a run of two snapshots with distinct device ids on a fresh
exporter, device `kkt-001` reports the error types 0 (count 3) and 8 (count 7); both are
labelled `unknown`, and after the run the series of type 0 holds 7, not the 3 of its own
snapshot.  And in a run of two snapshots with distinct device ids on an exporter that
already exposes `network = 5` for `kkt-001`, the snapshot of `kkt-001` reports no errors,
yet after the run `kkt_errors_total{kkt_id="kkt-001", error_type="network"}` still holds 5,
a value of no snapshot of the run. -/
theorem runUpdates_series_not_own_snapshot :
    ([((id : List (ErrorType × Int) → List (ErrorType × Int)), snapUnknown),
        (id, snapOther)].map (fun call => call.2.KKTID)).Nodup ∧
      (0, 3) ∈ snapUnknown.ErrorsByType ∧
      (runUpdates id (New Int)
        [((id : List (ErrorType × Int) → List (ErrorType × Int)), snapUnknown),
          (id, snapOther)]).kktErrorsTotal (snapUnknown.KKTID, errorTypeName 0) = some 7 ∧
      ([((id : List (ErrorType × Int) → List (ErrorType × Int)), snapClean),
        (id, snapOther)].map (fun call => call.2.KKTID)).Nodup ∧
      snapClean.ErrorsByType = [] ∧ snapOther.ErrorsByType = [(ErrorTypeOFD, 2)] ∧
      (runUpdates id (UpdateMetrics id id (New Int) snapNetwork)
        [((id : List (ErrorType × Int) → List (ErrorType × Int)), snapClean),
          (id, snapOther)]).kktErrorsTotal (snapClean.KKTID, "network") = some 5 := by
  refine ⟨by decide, by decide, by decide, by decide, rfl, rfl, by decide⟩

/-- C6, amended: `UpdateMetrics(s)` leaves every series of every device other than
`s.KKTID` exactly as it was; hence after a sequence of updates whose snapshots have pairwise
distinct device ids, in whatever order they are applied, every device is exposed, its eight
scalar series hold the values of its own snapshot, for every error type `t` of its snapshot
the series `kkt_errors_total{kkt_id, error_type = errorTypeName t}` exists and holds the
count its own snapshot gives to a type with that label, which is `ErrorsByType[t]` whenever
all types of the snapshot with that label carry that count, and every error series of the
device whose label no type of its snapshot has is as it was before the sequence. -/
theorem UpdateMetrics_no_lost_updates {F : Type} (toF : Int → F) (e : Exporter F) :
    (∀ (pick : List (ErrorType × Int) → List (ErrorType × Int)) (s : Metrics F) (d : String),
      d ≠ s.KKTID → SameDevice d e (UpdateMetrics toF pick e s)) ∧
    (∀ calls : List ((List (ErrorType × Int) → List (ErrorType × Int)) × Metrics F),
      (∀ call ∈ calls, RangeOrder call.1) →
      (calls.map (fun call => call.2.KKTID)).Nodup →
      ∀ call ∈ calls,
        ScalarsOf toF (runUpdates toF e calls) call.2 ∧
          ErrorsOf toF (runUpdates toF e calls) call.2 ∧
          (∀ t c, (t, c) ∈ call.2.ErrorsByType →
            (∀ t' c', (t', c') ∈ call.2.ErrorsByType →
              errorTypeName t' = errorTypeName t → c' = c) →
            (runUpdates toF e calls).kktErrorsTotal (call.2.KKTID, errorTypeName t) =
              some (toF c)) ∧
          (∀ l, (∀ t c, (t, c) ∈ call.2.ErrorsByType → errorTypeName t ≠ l) →
            (runUpdates toF e calls).kktErrorsTotal (call.2.KKTID, l) =
              e.kktErrorsTotal (call.2.KKTID, l))) := by
  refine ⟨fun pick s d hd => UpdateMetrics_frame toF pick e s d hd, ?_⟩
  intro calls hpick hnd call hc
  obtain ⟨hs, he, hu⟩ := runUpdates_own_snapshot toF e calls hpick hnd call hc
  refine ⟨hs, he, ?_, hu⟩
  intro t c htc huniq
  obtain ⟨t', c', hmem, hlabel, hval⟩ := he t c htc
  rw [hval, huniq t' c' hmem hlabel]

/-- Witness of the amended C6: two devices updated one after the other on a fresh exporter;
the first device keeps its scalar series and its network count through the second device's
update. -/
theorem UpdateMetrics_no_lost_updates_witness :
    "kkt-001" ≠ snapOther.KKTID ∧
      SameDevice "kkt-001" (UpdateMetrics id id (New Int) snapNetwork)
        (UpdateMetrics id List.reverse (UpdateMetrics id id (New Int) snapNetwork)
          snapOther) ∧
      (∀ call ∈ [((id : List (ErrorType × Int) → List (ErrorType × Int)), snapNetwork),
          (List.reverse, snapOther)], RangeOrder call.1) ∧
      ([((id : List (ErrorType × Int) → List (ErrorType × Int)), snapNetwork),
          (List.reverse, snapOther)].map (fun call => call.2.KKTID)).Nodup ∧
      ScalarsOf id
        (runUpdates id (New Int)
          [((id : List (ErrorType × Int) → List (ErrorType × Int)), snapNetwork),
            (List.reverse, snapOther)])
        snapNetwork ∧
      (runUpdates id (New Int)
          [((id : List (ErrorType × Int) → List (ErrorType × Int)), snapNetwork),
            (List.reverse, snapOther)]).kktErrorsTotal
        (snapNetwork.KKTID, errorTypeName ErrorTypeNetwork) = some 5 ∧
      (runUpdates id (New Int)
          [((id : List (ErrorType × Int) → List (ErrorType × Int)), snapNetwork),
            (List.reverse, snapOther)]).kktErrorsTotal
        (snapNetwork.KKTID, "ofd") = none := by
  have hne : "kkt-001" ≠ snapOther.KKTID := by decide
  have hord : ∀ call ∈ [((id : List (ErrorType × Int) → List (ErrorType × Int)), snapNetwork),
      (List.reverse, snapOther)], RangeOrder call.1 := by
    intro call hc
    simp only [List.mem_cons, List.mem_singleton, List.not_mem_nil, or_false] at hc
    rcases hc with rfl | rfl
    · exact fun m => List.Perm.refl m
    · exact fun m => List.reverse_perm m
  have hnd : ([((id : List (ErrorType × Int) → List (ErrorType × Int)), snapNetwork),
      (List.reverse, snapOther)].map (fun call => call.2.KKTID)).Nodup := by decide
  have hall := (UpdateMetrics_no_lost_updates id (New Int)).2 _ hord hnd (id, snapNetwork)
    (List.mem_cons_self _ _)
  refine ⟨hne,
    (UpdateMetrics_no_lost_updates id (UpdateMetrics id id (New Int) snapNetwork)).1
      List.reverse snapOther "kkt-001" hne,
    hord, hnd, hall.1, ?_, ?_⟩
  · refine hall.2.2.1 ErrorTypeNetwork 5 (List.mem_cons_self _ _) ?_
    intro t' c' h _
    simp only [snapNetwork, List.mem_singleton, Prod.mk.injEq] at h
    exact h.2
  · refine (hall.2.2.2 "ofd" ?_).trans rfl
    intro t c h
    simp only [snapNetwork, List.mem_singleton, Prod.mk.injEq] at h
    rw [h.1]
    decide

/-- C7: on an exporter with no series, `UpdateMetrics(s)` exposes no series for any device
other than `s.KKTID`; `kkt_status` of the device is the numeric code of `s.Status`
(unavailable 0, running 1, error 2) and `kkt_documents_total` is `s.DocumentsTotal`; a
running device with 1000 documents exposes `kkt_status = 1` and
`kkt_documents_total = 1000`. -/
theorem UpdateMetrics_fresh_exporter {F : Type} (toF : Int → F)
    (pick : List (ErrorType × Int) → List (ErrorType × Int)) (s : Metrics F) :
    (∀ d, d ≠ s.KKTID → NoSeries d (UpdateMetrics toF pick (New F) s)) ∧
      (UpdateMetrics toF pick (New F) s).kktStatus s.KKTID = some (toF s.Status) ∧
      (UpdateMetrics toF pick (New F) s).kktDocumentsTotal s.KKTID =
        some (toF s.DocumentsTotal) ∧
      KKTStatusUnavailable = 0 ∧ KKTStatusRunning = 1 ∧ KKTStatusError = 2 ∧
      (s.Status = KKTStatusRunning → s.DocumentsTotal = 1000 →
        (UpdateMetrics toF pick (New F) s).kktStatus s.KKTID = some (toF 1) ∧
          (UpdateMetrics toF pick (New F) s).kktDocumentsTotal s.KKTID =
            some (toF 1000)) := by
  have hs := UpdateMetrics_scalars toF pick (New F) s
  refine ⟨?_, hs.1, hs.2.1, rfl, rfl, rfl, ?_⟩
  · intro d hd
    obtain ⟨h1, h2, h3, h4, h5, h6, h7, h8, h9⟩ :=
      UpdateMetrics_frame toF pick (New F) s d hd
    exact ⟨h1, h2, h3, h4, h5, h6, h7, h8, h9⟩
  · intro hrun hdocs
    have h1 := hs.1
    have h2 := hs.2.1
    rw [hrun] at h1
    rw [hdocs] at h2
    exact ⟨h1, h2⟩

/-- Witness of C7: the running device `kkt-001` with 1000 documents. -/
theorem UpdateMetrics_fresh_exporter_witness :
    snapNetwork.Status = KKTStatusRunning ∧ snapNetwork.DocumentsTotal = 1000 ∧
      (UpdateMetrics id id (New Int) snapNetwork).kktStatus "kkt-001" = some 1 ∧
      (UpdateMetrics id id (New Int) snapNetwork).kktDocumentsTotal "kkt-001" = some 1000 ∧
      NoSeries "kkt-002" (UpdateMetrics id id (New Int) snapNetwork) :=
  ⟨rfl, rfl,
    ((UpdateMetrics_fresh_exporter id id snapNetwork).2.2.2.2.2.2 rfl rfl).1,
    ((UpdateMetrics_fresh_exporter id id snapNetwork).2.2.2.2.2.2 rfl rfl).2,
    (UpdateMetrics_fresh_exporter id id snapNetwork).1 "kkt-002" (by decide)⟩


/-! ## Configuration validation -/

/-- The six unconditional defaults, in closed form. -/
theorem validateAILogging_eq (c : Config) :
    validateAILogging c =
      { c with AI := (withDefaults c).AI, Logging := (withDefaults c).Logging } := by
  obtain ⟨s, col, ⟨p, ⟨en, mcs, st⟩, ⟨en', lb⟩⟩, ⟨lv, fm⟩⟩ := c
  simp only [validateAILogging, withDefaults, stringOr, intOr]
  by_cases h1 : p = "" <;> by_cases h2 : mcs = 0 <;> by_cases h3 : st = 0 <;>
    by_cases h4 : lb = 0 <;> by_cases h5 : lv = "" <;> by_cases h6 : fm = "" <;>
    simp only [h1, h2, h3, h4, h5, h6, if_true, if_false]

/-- The `HTTPOFD` stage on a section that passes its check. -/
theorem validateHTTPOFD_ok (c : Config)
    (h : ¬ (c.Collectors.HTTPOFD.Enabled = true ∧ c.Collectors.HTTPOFD.URL = "")) :
    validateHTTPOFD c =
      ({ c with
          Collectors := { c.Collectors with
            HTTPOFD := httpOFDDefaults c.Collectors.HTTPOFD }
          AI := (withDefaults c).AI
          Logging := (withDefaults c).Logging }, none) := by
  obtain ⟨s, ⟨fl, ⟨en, url, key, pi, tmo⟩⟩, ai, lg⟩ := c
  simp only [validateHTTPOFD, validateAILogging_eq, withDefaults, httpOFDDefaults, intOr]
  simp only [not_and] at h
  cases en with
  | false => simp
  | true =>
    have hurl : ¬ url = "" := h rfl
    by_cases h1 : pi = 0 <;> by_cases h2 : tmo = 0 <;> simp [hurl, h1, h2]

/-- The `HTTPOFD` stage on a section that fails its check leaves the configuration alone. -/
theorem validateHTTPOFD_fail (c : Config)
    (h : c.Collectors.HTTPOFD.Enabled = true ∧ c.Collectors.HTTPOFD.URL = "") :
    validateHTTPOFD c = (c, some "http_ofd url is required when enabled") := by
  simp [validateHTTPOFD, h.1, h.2]

/-- The `FileLog` stage on a section that fails its check leaves the configuration alone. -/
theorem validateFileLog_fail (c : Config)
    (h : c.Collectors.FileLog.Enabled = true ∧ c.Collectors.FileLog.Path = "") :
    validateFileLog c = (c, some "file_log path is required when enabled") := by
  simp [validateFileLog, h.1, h.2]

/-- The `FileLog` stage on a section that passes its check fills the file-log defaults and
hands over to the `HTTPOFD` stage. -/
theorem validateFileLog_ok (c : Config)
    (h : ¬ (c.Collectors.FileLog.Enabled = true ∧ c.Collectors.FileLog.Path = "")) :
    validateFileLog c =
      validateHTTPOFD
        { c with
          Collectors := { c.Collectors with
            FileLog := fileLogDefaults c.Collectors.FileLog } } := by
  obtain ⟨s, ⟨⟨en, path, fm, pi⟩, ho⟩, ai, lg⟩ := c
  simp only [validateFileLog, fileLogDefaults, stringOr, intOr]
  simp only [not_and] at h
  cases en with
  | false => simp
  | true =>
    have hpath : ¬ path = "" := h rfl
    by_cases h1 : fm = "" <;> by_cases h2 : pi = 0 <;> simp [hpath, h1, h2]

/-- The server stage of `Validate` on a configuration with a valid port. -/
theorem Validate_port_ok (c : Config) (h : ¬ (c.Server.Port ≤ 0 ∨ c.Server.Port > 65535)) :
    c.Validate = validateFileLog { c with Server := serverDefaults c.Server } := by
  obtain ⟨⟨port, mp, ap⟩, col, ai, lg⟩ := c
  simp only [Config.Validate, serverDefaults, stringOr]
  simp only at h
  rw [if_neg h]
  by_cases h1 : mp = "" <;> by_cases h2 : ap = "" <;> simp [h1, h2]

theorem Validate_port_fail (c : Config) (h : c.Server.Port ≤ 0 ∨ c.Server.Port > 65535) :
    c.Validate = (c, some ("invalid server port: " ++ toString c.Server.Port)) := by
  simp only [Config.Validate]
  rw [if_pos h]

/-- Complete description of `Validate`: which of its four exits is taken, with the
configuration each leaves behind. -/
theorem Validate_cases (c : Config) :
    ((c.Server.Port ≤ 0 ∨ c.Server.Port > 65535) ∧
        c.Validate = (c, some ("invalid server port: " ++ toString c.Server.Port))) ∨
    (¬ (c.Server.Port ≤ 0 ∨ c.Server.Port > 65535) ∧
        (c.Collectors.FileLog.Enabled = true ∧ c.Collectors.FileLog.Path = "") ∧
        c.Validate = ({ c with Server := serverDefaults c.Server },
          some "file_log path is required when enabled")) ∨
    (¬ (c.Server.Port ≤ 0 ∨ c.Server.Port > 65535) ∧
        ¬ (c.Collectors.FileLog.Enabled = true ∧ c.Collectors.FileLog.Path = "") ∧
        (c.Collectors.HTTPOFD.Enabled = true ∧ c.Collectors.HTTPOFD.URL = "") ∧
        c.Validate =
          ({ c with
              Server := serverDefaults c.Server
              Collectors := { c.Collectors with
                FileLog := fileLogDefaults c.Collectors.FileLog } },
            some "http_ofd url is required when enabled")) ∨
    (¬ (c.Server.Port ≤ 0 ∨ c.Server.Port > 65535) ∧
        ¬ (c.Collectors.FileLog.Enabled = true ∧ c.Collectors.FileLog.Path = "") ∧
        ¬ (c.Collectors.HTTPOFD.Enabled = true ∧ c.Collectors.HTTPOFD.URL = "") ∧
        c.Validate = (withDefaults c, none)) := by
  by_cases hp : c.Server.Port ≤ 0 ∨ c.Server.Port > 65535
  · exact Or.inl ⟨hp, Validate_port_fail c hp⟩
  · right
    rw [Validate_port_ok c hp]
    by_cases hf : c.Collectors.FileLog.Enabled = true ∧ c.Collectors.FileLog.Path = ""
    · exact Or.inl
        ⟨hp, hf, validateFileLog_fail { c with Server := serverDefaults c.Server } hf⟩
    · right
      rw [validateFileLog_ok { c with Server := serverDefaults c.Server } hf]
      by_cases hh : c.Collectors.HTTPOFD.Enabled = true ∧ c.Collectors.HTTPOFD.URL = ""
      · exact Or.inl ⟨hp, hf, hh, validateHTTPOFD_fail _ hh⟩
      · exact Or.inr ⟨hp, hf, hh, validateHTTPOFD_ok _ hh⟩


/-! ## Suggestions and alert recommendations -/

/-- C11: the `Suggestion` of every returned cluster is `generateMockSuggestion` of the error
type of each of its members; that lookup sends each of the seven defined types to a text of
its own, all eight texts being different, and every other `ErrorType` value to
"Contact technical support for assistance". -/
theorem ClusterErrors_suggestion_lookup (fmt : Time → String)
    (pick : List (ErrorType × List KKTError) → List (ErrorType × List KKTError))
    (hpick : RangeOrder pick) (E : List KKTError) :
    (∀ c ∈ (ClusterErrors fmt pick E).1, ∀ e ∈ c.Errors,
        c.Suggestion = generateMockSuggestion e.ErrorType) ∧
      generateMockSuggestion ErrorTypeNetwork =
        "Check network connectivity and firewall settings" ∧
      generateMockSuggestion ErrorTypeFiscalDrive =
        "Verify fiscal drive status and consider replacement if near capacity" ∧
      generateMockSuggestion ErrorTypeOFD = "Check OFD service status and credentials" ∧
      generateMockSuggestion ErrorTypePrinter = "Check printer connection and paper supply" ∧
      generateMockSuggestion ErrorTypeHardware =
        "Inspect hardware components and connections" ∧
      generateMockSuggestion ErrorTypeSoftware =
        "Review software logs and consider updating to latest version" ∧
      generateMockSuggestion ErrorTypeConfiguration =
        "Review configuration settings and compare with documentation" ∧
      (∀ t : ErrorType, t < 1 ∨ 7 < t →
        generateMockSuggestion t = "Contact technical support for assistance") ∧
      [generateMockSuggestion ErrorTypeNetwork, generateMockSuggestion ErrorTypeFiscalDrive,
        generateMockSuggestion ErrorTypeOFD, generateMockSuggestion ErrorTypePrinter,
        generateMockSuggestion ErrorTypeHardware, generateMockSuggestion ErrorTypeSoftware,
        generateMockSuggestion ErrorTypeConfiguration,
        "Contact technical support for assistance"].Nodup := by
  refine ⟨?_, rfl, rfl, rfl, rfl, rfl, rfl, rfl, ?_, by decide⟩
  · intro c hc e he
    obtain ⟨t, first, more, hE, hErr, _, _, _, _, _, hSug⟩ := cluster_shape fmt hpick E c hc
    rw [hErr, ← hE, mem_errorsOfType] at he
    rw [hSug, he.2]
  · intro (t : Int) (ht : t < 1 ∨ 7 < t)
    have h1 : t ≠ 1 := by omega
    have h2 : t ≠ 2 := by omega
    have h3 : t ≠ 3 := by omega
    have h4 : t ≠ 4 := by omega
    have h5 : t ≠ 5 := by omega
    have h6 : t ≠ 6 := by omega
    have h7 : t ≠ 7 := by omega
    simp [generateMockSuggestion, ErrorTypeNetwork, ErrorTypeFiscalDrive, ErrorTypeOFD,
      ErrorTypePrinter, ErrorTypeHardware, ErrorTypeSoftware, ErrorTypeConfiguration,
      h1, h2, h3, h4, h5, h6, h7]

/-- Witness of C11 on two network errors and one fiscal-drive error. -/
theorem ClusterErrors_suggestion_lookup_witness :
    RangeOrder (id : List (ErrorType × List KKTError) → List (ErrorType × List KKTError)) ∧
      ∀ c ∈ (ClusterErrors formatTimestamp id [netLate, fiscalErr, netEarly]).1,
        ∀ e ∈ c.Errors, c.Suggestion = generateMockSuggestion e.ErrorType :=
  ⟨fun m => List.Perm.refl m,
    (ClusterErrors_suggestion_lookup formatTimestamp id (fun m => List.Perm.refl m)
      [netLate, fiscalErr, netEarly]).1⟩

/-- C12: whatever the input metrics, the empty list included, `GenerateAlertRecommendations`
returns a nil error and a non-empty list holding a recommendation of each of the types
`kkt_unavailable`, `fd_memory_high` and `ofd_sync_failure`. -/
theorem GenerateAlertRecommendations_types {F : Type} (metrics : List (Metrics F)) :
    (GenerateAlertRecommendations metrics).2 = none ∧
      (GenerateAlertRecommendations metrics).1 ≠ [] ∧
      (∃ r ∈ (GenerateAlertRecommendations metrics).1, r.RecType = "kkt_unavailable") ∧
      (∃ r ∈ (GenerateAlertRecommendations metrics).1, r.RecType = "fd_memory_high") ∧
      (∃ r ∈ (GenerateAlertRecommendations metrics).1, r.RecType = "ofd_sync_failure") ∧
      (GenerateAlertRecommendations ([] : List (Metrics F))).2 = none ∧
      (GenerateAlertRecommendations ([] : List (Metrics F))).1 ≠ [] := by
  refine ⟨rfl, ?_, ?_, ?_, ?_, rfl, ?_⟩
  · simp [GenerateAlertRecommendations]
  · simp [GenerateAlertRecommendations]
  · simp [GenerateAlertRecommendations]
  · simp [GenerateAlertRecommendations]
  · simp [GenerateAlertRecommendations]

/-- C13, refuted as stated: the recommendation `rec-1`, whose condition is
`kkt_status == 0`, carries the threshold 5, which is none of the values 0, 1, 2 of
`kkt_status`. -/
theorem GenerateAlertRecommendations_status_threshold :
    ∃ r ∈ (GenerateAlertRecommendations ([] : List (Metrics Int))).1,
      r.ID = "rec-1" ∧ refersTo r.Condition "kkt_status" ∧ r.Threshold = 5 ∧
        ¬ (r.Threshold = 0 ∨ r.Threshold = 1 ∨ r.Threshold = 2) := by
  refine ⟨_, List.mem_cons_self _ _, rfl, by decide, by norm_num, by norm_num⟩

/-- C13, amended: every returned recommendation whose condition is about
`kkt_fd_memory_usage_percent` has a threshold within 0..100, about `kkt_ofd_sync_status` a
threshold among 0, 1, 2, 3, about `kkt_documents_per_hour` a non-negative threshold; the
recommendation about `kkt_status` has the threshold 5, the number of minutes of
unavailability its description names. -/
theorem GenerateAlertRecommendations_thresholds {F : Type} (metrics : List (Metrics F)) :
    ∀ r ∈ (GenerateAlertRecommendations metrics).1,
      (refersTo r.Condition "kkt_fd_memory_usage_percent" →
        0 ≤ r.Threshold ∧ r.Threshold ≤ 100) ∧
      (refersTo r.Condition "kkt_ofd_sync_status" →
        r.Threshold = 0 ∨ r.Threshold = 1 ∨ r.Threshold = 2 ∨ r.Threshold = 3) ∧
      (refersTo r.Condition "kkt_documents_per_hour" → 0 ≤ r.Threshold) ∧
      (refersTo r.Condition "kkt_status" →
        r.Threshold = 5 ∧
          r.Description = "Alert when KKT is unavailable for more than 5 minutes") := by
  intro r hr
  simp only [GenerateAlertRecommendations, List.mem_cons, List.mem_singleton,
    List.not_mem_nil, or_false] at hr
  rcases hr with rfl | rfl | rfl | rfl
  · refine ⟨fun h => absurd h (by decide), fun h => absurd h (by decide),
      fun h => absurd h (by decide), fun _ => ⟨by norm_num, rfl⟩⟩
  · refine ⟨fun _ => ⟨by norm_num, by norm_num⟩, fun h => absurd h (by decide),
      fun h => absurd h (by decide), fun h => absurd h (by decide)⟩
  · refine ⟨fun h => absurd h (by decide), fun _ => Or.inl (by norm_num),
      fun h => absurd h (by decide), fun h => absurd h (by decide)⟩
  · refine ⟨fun h => absurd h (by decide), fun h => absurd h (by decide),
      fun _ => by norm_num, fun h => absurd h (by decide)⟩

/-- Witness of the amended C13 on the fiscal-drive memory recommendation. -/
theorem GenerateAlertRecommendations_thresholds_witness :
    ∃ r ∈ (GenerateAlertRecommendations ([] : List (Metrics Int))).1,
      refersTo r.Condition "kkt_fd_memory_usage_percent" ∧
        0 ≤ r.Threshold ∧ r.Threshold ≤ 100 := by
  have hmem : ({ ID := "rec-2"
                 RecType := "fd_memory_high"
                 Condition := "kkt_fd_memory_usage_percent > 80"
                 Threshold := 80.0
                 Severity := "warning"
                 Description := "Alert when fiscal drive memory usage exceeds 80%"
                 Rationale := "High memory usage may lead to fiscal drive overflow. Early warning allows for proactive replacement." } :
      AlertRecommendation) ∈ (GenerateAlertRecommendations ([] : List (Metrics Int))).1 :=
    List.mem_cons_of_mem _ (List.mem_cons_self _ _)
  have href : refersTo "kkt_fd_memory_usage_percent > 80" "kkt_fd_memory_usage_percent" := by
    decide
  exact ⟨_, hmem, href,
    (GenerateAlertRecommendations_thresholds ([] : List (Metrics Int)) _ hmem).1 href⟩


/-! ## `Validate` -/

/-- C14: `Validate` returns an error exactly when the server port is outside 1..65535, or
file_log is enabled with an empty path, or http_ofd is enabled with an empty url; on every
other configuration it returns nil. -/
theorem Validate_error_iff (c : Config) :
    (c.Validate.2 ≠ none ↔ Invalid c) ∧ (c.Validate.2 = none ↔ ¬ Invalid c) := by
  have hport : (c.Server.Port ≤ 0 ∨ c.Server.Port > 65535) ↔
      (c.Server.Port < 1 ∨ 65535 < c.Server.Port) := by
    constructor <;> intro h <;> omega
  have key : c.Validate.2 ≠ none ↔ Invalid c := by
    unfold Invalid
    rw [← hport]
    rcases Validate_cases c with ⟨hp, hv⟩ | ⟨hp, hf, hv⟩ | ⟨hp, hf, hh, hv⟩ | ⟨hp, hf, hh, hv⟩
    · rw [hv]
      exact ⟨fun _ => Or.inl hp, fun _ => by simp⟩
    · rw [hv]
      exact ⟨fun _ => Or.inr (Or.inl hf), fun _ => by simp⟩
    · rw [hv]
      exact ⟨fun _ => Or.inr (Or.inr hh), fun _ => by simp⟩
    · rw [hv]
      constructor
      · intro h
        exact absurd rfl h
      · rintro (h | h | h)
        · exact absurd h hp
        · exact absurd h hf
        · exact absurd h hh
  refine ⟨key, ?_⟩
  rw [← key]
  exact not_not.symm

/-- A successful `Validate` leaves the configuration with its defaults filled in. -/
theorem Validate_ok_eq (c : Config) (h : c.Validate.2 = none) :
    c.Validate = (withDefaults c, none) := by
  rcases Validate_cases c with ⟨_, hv⟩ | ⟨_, _, hv⟩ | ⟨_, _, _, hv⟩ | ⟨_, _, _, hv⟩
  · rw [hv] at h
    exact absurd h (by simp)
  · rw [hv] at h
    exact absurd h (by simp)
  · rw [hv] at h
    exact absurd h (by simp)
  · exact hv

/-- C15: whenever `Validate` returns nil, the configuration it leaves is the input with each
zero-valued defaultable field replaced by its default and every other field as given. -/
theorem Validate_fills_defaults (c : Config) (h : c.Validate.2 = none) :
    c.Validate.1 = withDefaults c := by
  rw [Validate_ok_eq c h]

/-- Witness of C15 on the "valid config" case of the repository's test. -/
theorem Validate_fills_defaults_witness :
    validConfig.Validate.2 = none ∧ validConfig.Validate.1 = withDefaults validConfig :=
  ⟨by decide, Validate_fills_defaults validConfig (by decide)⟩

theorem stringOr_idem (s d : String) (hd : d ≠ "") :
    stringOr (stringOr s d) d = stringOr s d := by
  unfold stringOr
  by_cases h : s = "" <;> simp [h, hd]

theorem intOr_idem (x d : Int) (hd : d ≠ 0) : intOr (intOr x d) d = intOr x d := by
  unfold intOr
  by_cases h : x = 0 <;> simp [h, hd]

/-- Filling the defaults twice is filling them once. -/
theorem withDefaults_idem (c : Config) : withDefaults (withDefaults c) = withDefaults c := by
  obtain ⟨⟨port, mp, ap⟩, ⟨⟨fen, path, fm, fpi⟩, ⟨hen, url, key, hpi, tmo⟩⟩,
    ⟨p, ⟨en, mcs, st⟩, ⟨en', lb⟩⟩, ⟨lv, lf⟩⟩ := c
  have hst : (if (if st = 0 then (7 / 10 : ℚ) else st) = 0 then (7 / 10 : ℚ)
      else (if st = 0 then (7 / 10 : ℚ) else st)) = (if st = 0 then (7 / 10 : ℚ) else st) := by
    by_cases h : st = 0
    · simp [h]
    · simp [h]
  have hfl : fileLogDefaults (fileLogDefaults ⟨fen, path, fm, fpi⟩) =
      fileLogDefaults ⟨fen, path, fm, fpi⟩ := by
    cases fen with
    | false => simp [fileLogDefaults]
    | true =>
      simp only [fileLogDefaults, if_true]
      rw [stringOr_idem _ _ (by decide), intOr_idem _ _ (by decide)]
  have hho : httpOFDDefaults (httpOFDDefaults ⟨hen, url, key, hpi, tmo⟩) =
      httpOFDDefaults ⟨hen, url, key, hpi, tmo⟩ := by
    cases hen with
    | false => simp [httpOFDDefaults]
    | true =>
      simp only [httpOFDDefaults, if_true]
      rw [intOr_idem _ _ (by decide), intOr_idem _ _ (by decide)]
  simp only [withDefaults, serverDefaults, hfl, hho, hst]
  rw [stringOr_idem _ _ (by decide), stringOr_idem _ _ (by decide),
    stringOr_idem _ _ (by decide), stringOr_idem _ _ (by decide),
    stringOr_idem _ _ (by decide), intOr_idem _ _ (by decide), intOr_idem _ _ (by decide)]

theorem fileLogDefaults_check (f : FileLogConfig) :
    (fileLogDefaults f).Enabled = f.Enabled ∧ (fileLogDefaults f).Path = f.Path := by
  unfold fileLogDefaults
  split <;> exact ⟨rfl, rfl⟩

theorem httpOFDDefaults_check (h : HTTPOFDConfig) :
    (httpOFDDefaults h).Enabled = h.Enabled ∧ (httpOFDDefaults h).URL = h.URL := by
  unfold httpOFDDefaults
  split <;> exact ⟨rfl, rfl⟩

/-- C19: on every configuration on which `Validate` returns nil, a second `Validate` on the
resulting configuration returns nil again and changes no field. -/
theorem Validate_idempotent (c : Config) (h : c.Validate.2 = none) :
    c.Validate.1.Validate = (c.Validate.1, none) := by
  have hinv : ¬ Invalid c := (Validate_error_iff c).2.1 h
  rw [Validate_fills_defaults c h]
  have hinv' : ¬ Invalid (withDefaults c) := by
    intro hi
    apply hinv
    unfold Invalid at hi ⊢
    have hf := fileLogDefaults_check c.Collectors.FileLog
    have hh := httpOFDDefaults_check c.Collectors.HTTPOFD
    rcases hi with hi | hi | hi
    · exact Or.inl hi
    · exact Or.inr (Or.inl ⟨hf.1 ▸ hi.1, hf.2 ▸ hi.2⟩)
    · exact Or.inr (Or.inr ⟨hh.1 ▸ hi.1, hh.2 ▸ hi.2⟩)
  have hok := Validate_ok_eq (withDefaults c) ((Validate_error_iff (withDefaults c)).2.2 hinv')
  rw [hok, withDefaults_idem]

/-- Witness of C19 on the "valid config" case of the repository's test. -/
theorem Validate_idempotent_witness :
    validConfig.Validate.2 = none ∧
      validConfig.Validate.1.Validate = (validConfig.Validate.1, none) :=
  ⟨by decide, Validate_idempotent validConfig (by decide)⟩

/-- C20, refuted as stated: on the "file_log enabled without path" configuration, whose
`metrics_path` and `api_path` are empty, `Validate` returns an error and yet leaves
`metrics_path` set to `/metrics` and `api_path` set to `/api/v1`. -/
theorem Validate_failure_not_atomic :
    noPathConfig.Validate.2 = some "file_log path is required when enabled" ∧
      noPathConfig.Server.MetricsPath = "" ∧ noPathConfig.Server.APIPath = "" ∧
      noPathConfig.Validate.1.Server.MetricsPath = "/metrics" ∧
      noPathConfig.Validate.1.Server.APIPath = "/api/v1" ∧
      noPathConfig.Validate.1 ≠ noPathConfig := by
  refine ⟨by decide, by decide, by decide, by decide, by decide, ?_⟩
  intro h
  have h' := congrArg (fun c => c.Server.MetricsPath) h
  revert h'
  decide

/-- C20, amended: when `Validate` returns an error for an invalid port the configuration is
left exactly as it was; when it returns the file_log error the configuration is the input
with only the server defaults (`metrics_path`, `api_path`) filled in; when it returns the
http_ofd error it is the input with only the server defaults and the file_log defaults
filled in; on every failure the port, the http_ofd section, the AI section and the logging
section are as given. -/
theorem Validate_failure_state (c : Config) (h : c.Validate.2 ≠ none) :
    ((c.Server.Port < 1 ∨ 65535 < c.Server.Port) → c.Validate.1 = c) ∧
      (¬ (c.Server.Port < 1 ∨ 65535 < c.Server.Port) →
        (c.Collectors.FileLog.Enabled = true ∧ c.Collectors.FileLog.Path = "") →
        c.Validate.1 = { c with Server := serverDefaults c.Server }) ∧
      (¬ (c.Server.Port < 1 ∨ 65535 < c.Server.Port) →
        ¬ (c.Collectors.FileLog.Enabled = true ∧ c.Collectors.FileLog.Path = "") →
        c.Validate.1 =
          { c with
            Server := serverDefaults c.Server
            Collectors := { c.Collectors with
              FileLog := fileLogDefaults c.Collectors.FileLog } }) ∧
      c.Validate.1.Server.Port = c.Server.Port ∧
      c.Validate.1.Collectors.HTTPOFD = c.Collectors.HTTPOFD ∧
      c.Validate.1.AI = c.AI ∧
      c.Validate.1.Logging = c.Logging := by
  have hport : (c.Server.Port ≤ 0 ∨ c.Server.Port > 65535) ↔
      (c.Server.Port < 1 ∨ 65535 < c.Server.Port) := by
    constructor <;> intro h <;> omega
  rw [← hport]
  rcases Validate_cases c with ⟨hp, hv⟩ | ⟨hp, hf, hv⟩ | ⟨hp, hf, hh, hv⟩ | ⟨hp, hf, hh, hv⟩
  · rw [hv]
    exact ⟨fun _ => rfl, fun hn => absurd hp hn, fun hn => absurd hp hn, rfl, rfl, rfl, rfl⟩
  · rw [hv]
    exact ⟨fun hn => absurd hn hp, fun _ _ => rfl, fun _ hn => absurd hf hn, rfl, rfl, rfl,
      rfl⟩
  · rw [hv]
    exact ⟨fun hn => absurd hn hp, fun _ hn => absurd hn hf, fun _ _ => rfl, rfl, rfl, rfl,
      rfl⟩
  · rw [hv] at h
    exact absurd rfl h

/-- Witness of the amended C20 on a configuration whose enabled http_ofd section has no
url. -/
theorem Validate_failure_state_witness :
    noURLConfig.Validate.2 ≠ none ∧
      noURLConfig.Validate.1 =
        { noURLConfig with
          Server := serverDefaults noURLConfig.Server
          Collectors := { noURLConfig.Collectors with
            FileLog := fileLogDefaults noURLConfig.Collectors.FileLog } } ∧
      noURLConfig.Validate.1.AI = noURLConfig.AI :=
  ⟨by decide,
    (Validate_failure_state noURLConfig (by decide)).2.2.1 (by decide) (by decide),
    (Validate_failure_state noURLConfig (by decide)).2.2.2.2.2.1⟩


/-! ## Collectors -/

theorem trySend_room {α : Type} (ch : Chan α) (v : α) (hopen : ch.closed = false)
    (hroom : ch.buf.length < ch.cap) :
    ch.trySend v = TrySend.sent { ch with buf := ch.buf ++ [v] } := by
  simp [Chan.trySend, hopen, hroom]

theorem trySend_full {α : Type} (ch : Chan α) (v : α) (hopen : ch.closed = false)
    (hfull : ch.cap ≤ ch.buf.length) : ch.trySend v = TrySend.wouldBlock := by
  simp [Chan.trySend, hopen, Nat.not_lt.2 hfull]

/-- C16: one poll cycle of either collector, on a collector whose metrics queue is the open
100-slot queue the constructor makes, returns at once: with fewer than 100 snapshots queued
it appends exactly one snapshot at the back of the metrics queue and returns nil; with 100
queued it returns the error "metrics channel full" and leaves the metrics queue as it was;
in both cases nothing else of the collector, the error-event queue in particular, changes. -/
theorem collectOnce_nonblocking (now now' : Time) :
    (∀ c : FileLogCollector, c.metricsChan.cap = 100 → c.metricsChan.closed = false →
      (c.metricsChan.buf.length < 100 →
        c.collectOnce now now' =
          Outcome.returned
            { c with metricsChan := c.metricsChan.enqueued (fileLogSnapshot now now') }
            none) ∧
      (100 ≤ c.metricsChan.buf.length →
        c.collectOnce now now' = Outcome.returned c (some "metrics channel full"))) ∧
    (∀ c : HTTPOFDCollector, c.metricsChan.cap = 100 → c.metricsChan.closed = false →
      (c.metricsChan.buf.length < 100 →
        c.collectOnce now now' =
          Outcome.returned
            { c with metricsChan := c.metricsChan.enqueued (httpOFDSnapshot now now') }
            none) ∧
      (100 ≤ c.metricsChan.buf.length →
        c.collectOnce now now' = Outcome.returned c (some "metrics channel full"))) := by
  constructor
  · intro c hcap hopen
    constructor
    · intro hlen
      unfold FileLogCollector.collectOnce
      simp only
      rw [trySend_room _ _ hopen (hcap ▸ hlen)]
      rfl
    · intro hlen
      unfold FileLogCollector.collectOnce
      simp only
      rw [trySend_full _ _ hopen (hcap ▸ hlen)]
  · intro c hcap hopen
    constructor
    · intro hlen
      unfold HTTPOFDCollector.collectOnce
      simp only
      rw [trySend_room _ _ hopen (hcap ▸ hlen)]
      rfl
    · intro hlen
      unfold HTTPOFDCollector.collectOnce
      simp only
      rw [trySend_full _ _ hopen (hcap ▸ hlen)]

/-- Witness of C16: a full file-log collector refuses the snapshot, a fresh OFD collector
accepts it. -/
theorem collectOnce_nonblocking_witness :
    fullFileLog.metricsChan.cap = 100 ∧ fullFileLog.metricsChan.closed = false ∧
      100 ≤ fullFileLog.metricsChan.buf.length ∧
      fullFileLog.collectOnce 1704153600 1704153601 =
        Outcome.returned fullFileLog (some "metrics channel full") ∧
      (NewHTTPOFDCollector sampleHTTPOFDConfig).metricsChan.buf.length < 100 ∧
      (NewHTTPOFDCollector sampleHTTPOFDConfig).collectOnce 1704153600 1704153601 =
        Outcome.returned
          { NewHTTPOFDCollector sampleHTTPOFDConfig with
            metricsChan :=
              (NewHTTPOFDCollector sampleHTTPOFDConfig).metricsChan.enqueued
                (httpOFDSnapshot 1704153600 1704153601) }
          none := by
  have hlen : 100 ≤ fullFileLog.metricsChan.buf.length := by
    simp [fullFileLog]
  have hnew : (NewHTTPOFDCollector sampleHTTPOFDConfig).metricsChan.buf.length < 100 := by
    simp [NewHTTPOFDCollector, Chan.make]
  exact ⟨rfl, rfl, hlen,
    ((collectOnce_nonblocking 1704153600 1704153601).1 fullFileLog rfl rfl).2 hlen, hnew,
    ((collectOnce_nonblocking 1704153600 1704153601).2
      (NewHTTPOFDCollector sampleHTTPOFDConfig) rfl rfl).1 hnew⟩

/-- C17, the code at the failing input: for either collector the first `Stop` on a freshly
constructed collector returns nil and leaves the stop channel closed, and a second `Stop`
does not return: closing the closed stop channel panics. -/
theorem Stop_twice_panics (fcfg : FileLogConfig) (hcfg : HTTPOFDConfig) :
    (∃ c' : FileLogCollector,
      (NewFileLogCollector fcfg).Stop = Outcome.returned c' none ∧
        c'.stopChan.closed = true ∧
        c'.Stop = Outcome.panicked "close of closed channel") ∧
    (∃ c' : HTTPOFDCollector,
      (NewHTTPOFDCollector hcfg).Stop = Outcome.returned c' none ∧
        c'.stopChan.closed = true ∧
        c'.Stop = Outcome.panicked "close of closed channel") :=
  ⟨⟨_, rfl, rfl, rfl⟩, ⟨_, rfl, rfl, rfl⟩⟩

/-- C18, refuted as stated: for either collector a second `Start` on a freshly constructed
collector returns nil, like the first, and leaves two polling loops launched. -/
theorem Start_twice_returns_nil :
    (∃ c₁ c₂ : FileLogCollector,
      (NewFileLogCollector sampleFileLogConfig).Start = Outcome.returned c₁ none ∧
        c₁.Start = Outcome.returned c₂ none ∧ c₂.launched = 2) ∧
    (∃ c₁ c₂ : HTTPOFDCollector,
      (NewHTTPOFDCollector sampleHTTPOFDConfig).Start = Outcome.returned c₁ none ∧
        c₁.Start = Outcome.returned c₂ none ∧ c₂.launched = 2) :=
  ⟨⟨_, _, rfl, rfl, rfl⟩, ⟨_, _, rfl, rfl, rfl⟩⟩

/-- C18, amended: for either collector every call of `Start`, the first included, returns
nil and launches one more polling loop, whatever the state of the collector; it changes
nothing else. -/
theorem Start_always_returns_nil :
    (∀ c : FileLogCollector,
      c.Start = Outcome.returned { c with launched := c.launched + 1 } none) ∧
    (∀ c : HTTPOFDCollector,
      c.Start = Outcome.returned { c with launched := c.launched + 1 } none) ∧
    (∀ cfg, (NewFileLogCollector cfg).launched = 0) ∧
    (∀ cfg, (NewHTTPOFDCollector cfg).launched = 0) :=
  ⟨fun _ => rfl, fun _ => rfl, fun _ => rfl, fun _ => rfl⟩


end KKT
